import Mathlib

/-!
Verification development for the quality-breakout identification pipeline
(src/data-processing/quality_breakouts.py).  Daily bars are modelled with
exact rational prices and integer day numbers; pandas DataFrames become
lists of rows, and fallible lookups become Option-valued functions.
-/

set_option linter.unusedVariables false

/-- Raw OHLCV bar as parsed from a ticker's JSON array: `Date` is a day
number (days since 1970-01-01), prices and volume are exact rationals. -/
structure RawBar where
  date : Int
  open_ : ℚ
  high : ℚ
  low : ℚ
  close : ℚ
  volume : ℚ
deriving Repr, DecidableEq

instance : Inhabited RawBar := ⟨⟨0, 0, 0, 0, 0, 0⟩⟩

/-- Validated bar of a Series: a raw bar together with the trailing simple
moving averages the Loader attaches (`10sma`/`20sma`/`50sma`), which are
undefined (`none`) while fewer than n closes are available. -/
structure Row where
  date : Int
  open_ : ℚ
  high : ℚ
  low : ℚ
  close : ℚ
  volume : ℚ
  sma10 : Option ℚ
  sma20 : Option ℚ
  sma50 : Option ℚ
deriving Repr, DecidableEq

instance : Inhabited Row := ⟨⟨0, 0, 0, 0, 0, 0, none, none, none⟩⟩

/-- Maximum of a rational column (pandas `Series.max`); 0 on an empty list,
which no caller reaches. -/
def colMax (l : List ℚ) : ℚ :=
  match l with
  | [] => 0
  | x :: xs => xs.foldl max x

/-- Minimum of a rational column (pandas `Series.min`); 0 on an empty list. -/
def colMin (l : List ℚ) : ℚ :=
  match l with
  | [] => 0
  | x :: xs => xs.foldl min x

/-- Position of the first occurrence of the column maximum (`Series.idxmax`). -/
def idxmaxCol (l : List ℚ) : ℕ := l.findIdx (fun x => x == colMax l)

/-- Position of the first occurrence of the column minimum (`Series.idxmin`). -/
def idxminCol (l : List ℚ) : ℕ := l.findIdx (fun x => x == colMin l)

/-- Arithmetic mean of a rational column (`Series.mean`). -/
def colMean (l : List ℚ) : ℚ := (l.foldl (· + ·) 0) / (l.length : ℚ)

/-- Slice `df.iloc[a:b]` (half-open, clamped like a Python slice with
nonnegative bounds). -/
def iloc (df : List α) (a b : ℕ) : List α := (df.drop a).take (b - a)

/-- Positional index of a date in the frame (`df.index.get_loc`), `none`
where pandas would raise `KeyError`. -/
def getLoc (df : List Row) (d : Int) : Option ℕ := df.findIdx? (fun r => r.date == d)

/-- Timestamp `1990-01-01` (CONFIG `min_date`) as a day number. -/
def min_date : Int := 7305

/-- Trailing n-bar simple moving average of the closes
(`Series.rolling(n).mean()`): `none` for the first n-1 positions. -/
def rollingMean (n : ℕ) (closes : List ℚ) : List (Option ℚ) :=
  (List.range closes.length).map (fun i =>
    if i + 1 < n then none
    else some ((((closes.drop (i + 1 - n)).take n).foldl (· + ·) 0) / (n : ℚ)))

/-- Attachment of the `10sma`/`20sma`/`50sma` columns to a cleaned series
(read_stock_data, the three `rolling(...).mean()` assignments). -/
def addSmas (l : List RawBar) : List Row :=
  let closes := l.map (·.close)
  let s10 := rollingMean 10 closes
  let s20 := rollingMean 20 closes
  let s50 := rollingMean 50 closes
  (List.range l.length).map (fun i =>
    let b := l.getD i default
    { date := b.date, open_ := b.open_, high := b.high, low := b.low,
      close := b.close, volume := b.volume,
      sma10 := s10.getD i none, sma20 := s20.getD i none, sma50 := s50.getD i none })

/-- Invalid-row mask of the Loader (read_stock_data): broken OHLC ordering,
negative volume, or a nonpositive price. -/
def invalidRow (b : RawBar) : Bool :=
  decide (b.high < b.low) || decide (b.high < b.close) || decide (b.high < b.open_) ||
  decide (b.low > b.close) || decide (b.low > b.open_) || decide (b.volume < 0) ||
  decide (b.open_ ≤ 0) || decide (b.high ≤ 0) || decide (b.low ≤ 0) || decide (b.close ≤ 0)

/-- Duplicate-date removal keeping the first occurrence
(`df[~df.index.duplicated(keep='first')]`); `seen` carries the dates already
encountered. -/
def dropDupDatesAux : List RawBar → List Int → List RawBar
  | [], _ => []
  | b :: rest, seen =>
    if b.date ∈ seen then dropDupDatesAux rest seen
    else b :: dropDupDatesAux rest (b.date :: seen)

/-- Duplicate-date removal keeping the first occurrence. -/
def dropDupDates (l : List RawBar) : List RawBar := dropDupDatesAux l []

/-- Extreme single-day move heuristic of the Loader:
`df['close'].pct_change().abs() > 0.5` on any day. -/
def extremeMove (l : List RawBar) : Bool :=
  (l.zip l.tail).any (fun p => decide ((|p.2.close / p.1.close - 1|) > 0.5))

/-- Stale-quote heuristic of the Loader: number of days whose close equals the
previous close. -/
def unchangedDays (l : List RawBar) : ℕ :=
  (l.zip l.tail).countP (fun p => p.2.close == p.1.close)

/-- Volume-variance heuristic of the Loader.  pandas compares
`volume.std() / volume.mean() > 10` with sample standard deviation
(ddof = 1); since the source guards `volume_mean > 0` and both sides are then
nonnegative, squaring gives the equivalent rational test
`variance > 100 * mean^2` used here (the standard deviation itself is
irrational in general). -/
def volumeVarianceBad (l : List RawBar) : Bool :=
  let vols := l.map (·.volume)
  let m := colMean vols
  let var := (vols.foldl (fun acc v => acc + (v - m) ^ 2) 0) / ((vols.length : ℚ) - 1)
  decide (m > 0) && decide (var > 100 * m ^ 2)

/-- Minimum-length check (check_data_quality). -/
def check_data_quality (df : List Row) : Bool := decide (126 ≤ df.length)

/-- Series Loader and Validator (read_stock_data) over an already-parsed list
of raw bars; file access, the ticker cache and logging sit outside the model.
The stages appear in source order: empty input, pre-1990 cutoff and date
filter, minimum length, invalid-row fraction and removal, up-close
("green candle") ratio, duplicate dates, minimum length again, moving
averages, extreme single-day moves, stale quotes, volume variance, and the
final check_data_quality gate. -/
def read_stock_data (data : List RawBar) : Option (List Row) :=
  if data.isEmpty then none
  else
    match (data.map (·.date)).max? with
    | none => none
    | some maxd =>
      if maxd < min_date then none
      else
        let df1 := data.filter (fun b => decide (min_date ≤ b.date))
        if df1.length < 126 then none
        else if (df1.countP invalidRow : ℚ) > (df1.length : ℚ) * 0.05 then none
        else
          let df2 := df1.filter (fun b => !(invalidRow b))
          if 0 < df2.length ∧
              ((df2.countP (fun b => decide (b.close > b.open_)) : ℚ) / (df2.length : ℚ) > 0.9) then
            none
          else
            let df3 := dropDupDates df2
            if df3.length < 126 then none
            else
              let rows := addSmas df3
              if extremeMove df3 then none
              else if (unchangedDays df3 : ℚ) > (df3.length : ℚ) * 0.1 then none
              else if 20 < df3.length ∧ volumeVarianceBad df3 then none
              else if check_data_quality rows then some rows
              else none

/-- Row access `df.iloc[i]` at positions the source guarantees in range; the
default row stands in for the `IndexError` pandas would raise. -/
def ilocRow (df : List Row) (i : ℕ) : Row := df.getD i default

/-- Cross condition of the classifier walk: the close at position `j` sits
below its 20-day average (a pandas comparison with a missing average is
false, so a `none` average is never a cross). -/
def closeBelowSma20 (df : List Row) (j : ℕ) : Bool :=
  match (ilocRow df j).sma20 with
  | none => false
  | some s => decide ((ilocRow df j).close < s)

/-- Classifier walk (find_first_cross_below_sma with its default
`sma_period=20`): the first position after `focus_idx` whose close is below
its 20-day average, or the last position when none exists. -/
def find_first_cross_below_sma (df : List Row) (focus_idx : ℕ) : ℕ :=
  if df.length ≤ focus_idx + 1 then df.length - 1
  else
    match (List.range df.length).findIdx?
        (fun j => decide (focus_idx + 1 ≤ j) && closeBelowSma20 df j) with
    | some j => j
    | none => df.length - 1

/-- Performance classifier (determine_performance_category): percentage change
from the breakout day's open to the close at `cross_idx` (clamped to the last
position), bucketed by the fixed cutoffs -2.5 / 10 / 35. -/
def determine_performance_category (df : List Row) (breakout_idx cross_idx : ℕ) : ℤ :=
  let cross_idx := if df.length ≤ cross_idx then df.length - 1 else cross_idx
  let breakout_price := (ilocRow df breakout_idx).open_
  let cross_close_price := (ilocRow df cross_idx).close
  let performance_pct := (cross_close_price - breakout_price) / breakout_price * 100
  if performance_pct ≤ -2.5 then 1
  else if performance_pct ≤ 10 then 2
  else if performance_pct ≤ 35 then 3
  else 4

/-- Pattern-length gate (check_pattern_quality): the consolidation span must
cover at least 4 positions. -/
def check_pattern_quality (start_idx end_idx : ℕ) : Bool :=
  decide (4 ≤ (end_idx : ℤ) - (start_idx : ℤ))

/-- Strict containment check (check_price_within_range): the drop from the
swing high's high to the lowest low through the breakout must stay within
CONFIG `max_consolidation_drop` = 0.30.  A failed date lookup models the
KeyError pandas would raise (the callers always pass in-frame dates). -/
def check_price_within_range (df : List Row) (high_date breakout_date : Int) : Bool :=
  match getLoc df high_date, getLoc df breakout_date with
  | some high_idx, some breakout_idx =>
    if breakout_idx ≤ high_idx then false
    else
      let high_price := (ilocRow df high_idx).high
      let cons_low := colMin ((iloc df high_idx (breakout_idx + 1)).map (·.low))
      decide ((high_price - cons_low) / high_price ≤ 0.30)
  | _, _ => false

/-- Relaxed containment check (check_price_within_range_relaxed) against an
explicit ceiling `max_drop`; its try/except returns False on a failed lookup. -/
def check_price_within_range_relaxed (df : List Row) (high_date breakout_date : Int)
    (max_drop : ℚ) : Bool :=
  match getLoc df high_date, getLoc df breakout_date with
  | some high_idx, some breakout_idx =>
    if breakout_idx ≤ high_idx then false
    else
      let high_price := (ilocRow df high_idx).high
      let cons_low := colMin ((iloc df high_idx (breakout_idx + 1)).map (·.low))
      decide ((high_price - cons_low) / high_price ≤ max_drop)
  | _, _ => false

/-- Exception-tolerant containment check (check_consolidation_tightness) with
explicit thresholds (their CONFIG defaults are 0.30 / 0.35 / 2): returns
(is_tight_enough, max_drop_pct, exception_days).  The pipeline never calls
it; it documents the bounded-exception tolerance the spec describes. -/
def check_consolidation_tightness (df : List Row) (high_date breakout_date : Int)
    (max_drop exception_threshold : ℚ) (max_exception_days : ℕ) : Bool × ℚ × ℕ :=
  match getLoc df high_date, getLoc df breakout_date with
  | some high_idx, some breakout_idx =>
    if breakout_idx ≤ high_idx then (false, 0, 0)
    else
      let consolidation := iloc df high_idx (breakout_idx + 1)
      if consolidation.length < 3 then (false, 0, 0)
      else
        let high_price := (ilocRow consolidation 0).high
        let daily_drops := consolidation.map (fun r => (high_price - r.low) / high_price)
        let max_drop_pct := colMax daily_drops
        if max_drop_pct ≤ max_drop then (true, max_drop_pct, 0)
        else
          let exception_days :=
            daily_drops.countP (fun d => decide (max_drop < d) && decide (d ≤ exception_threshold))
          let severe_violation_days := daily_drops.countP (fun d => decide (exception_threshold < d))
          ((decide (exception_days ≤ max_exception_days) && decide (severe_violation_days = 0)),
            max_drop_pct, exception_days)
  | _, _ => (false, 0, 0)

/-- Pullback validator (check_orderly_pullback) with its CONFIG defaults
`min_pullback_pct` = 0.04, `min_pullback_days` = 1, `max_pullback_days` = 15:
searches the window after the swing high for the lowest low and returns
(meets-minimum, pullback low date, pullback percentage). -/
def check_orderly_pullback (df : List Row) (high_date : Int) : Bool × Option Int × ℚ :=
  let min_pullback_pct : ℚ := 0.04
  let min_days : ℕ := 1
  let max_days : ℕ := 15
  match getLoc df high_date with
  | none => (false, none, 0)
  | some high_idx =>
    let end_idx := min (high_idx + max_days + 1) df.length
    if end_idx ≤ high_idx + min_days then (false, none, 0)
    else
      let pullback_window := iloc df (high_idx + min_days) end_idx
      if pullback_window.isEmpty then (false, none, 0)
      else
        let high_price := (ilocRow df high_idx).high
        let lows := pullback_window.map (·.low)
        let low_price := colMin lows
        let low_date := (ilocRow pullback_window (idxminCol lows)).date
        let pullback_pct := (high_price - low_price) / high_price
        (decide (min_pullback_pct ≤ pullback_pct), some low_date, pullback_pct)

/-- Validity and total gain of the uptrend segment `window.iloc[i:high_loc+1]`
(the body of find_big_move's start-point loop): `some total_pct` when the
segment is at least `min_days` long and passes the gain, average-daily-gain,
duration and majority-quality checks, `none` when the loop would skip or
reject it.  The `best_candidate` bookkeeping of the source only feeds
logging and does not affect the returned value. -/
def segment_valid_pct (window : List Row) (high_loc min_days : ℕ) (min_daily_pct : ℚ)
    (i : ℕ) : Option ℚ :=
  let segment := iloc window i (high_loc + 1)
  if segment.length < min_days then none
  else
    let start_price := (ilocRow segment 0).close
    let end_price := (ilocRow segment (segment.length - 1)).high
    let total_pct := (end_price - start_price) / start_price * 100
    let days : ℤ := max 1 ((ilocRow segment (segment.length - 1)).date - (ilocRow segment 0).date)
    let simple_avg_daily_pct := if 0 < days then total_pct / (days : ℚ) else 0
    let price_increases := (segment.zip segment.tail).countP (fun p => decide (p.1.close < p.2.close))
    let price_increase_ratio :=
      if 1 < segment.length then (price_increases : ℚ) / ((segment.length : ℚ) - 1) else 0
    let max_single_day_gain :=
      if 1 < segment.length then
        colMax ((segment.zip segment.tail).map (fun p => p.2.high / p.1.high - 1)) * 100
      else 0
    let max_day_contribution := if 0 < total_pct then max_single_day_gain / total_pct else 1
    let avg_volume := colMean (segment.map (·.volume))
    let high_volume_days := segment.countP (fun r => decide (avg_volume * 1.2 < r.volume))
    let high_volume_ratio :=
      if 0 < segment.length then (high_volume_days : ℚ) / (segment.length : ℚ) else 0
    let consistent_uptrend := decide ((0.4 : ℚ) ≤ price_increase_ratio)
    let not_just_spike := decide (max_day_contribution ≤ (0.6 : ℚ))
    let decent_volume := decide ((0.25 : ℚ) ≤ high_volume_ratio)
    let total_gain_ok := decide ((35 : ℚ) ≤ total_pct) && decide (total_pct ≤ (100 : ℚ))
    let avg_daily_ok := decide (min_daily_pct * 0.8 ≤ simple_avg_daily_pct)
    let days_ok := decide ((min_days : ℤ) ≤ days) && decide (days ≤ 90)
    let quality_ok :=
      decide (1 ≤ (if consistent_uptrend then 1 else 0) + (if not_just_spike then 1 else 0) +
        (if decent_volume then (1 : ℕ) else 0))
    if total_gain_ok && avg_daily_ok && days_ok && quality_ok then some total_pct else none

/-- Earliest-first scan of find_big_move's start-point loop: the first index
`i` (counting up from `i0`, for `fuel` steps) whose segment is valid,
together with that segment's total gain. -/
def firstValidFrom (window : List Row) (high_loc min_days : ℕ) (min_daily_pct : ℚ) :
    ℕ → ℕ → Option (ℕ × ℚ)
  | _, 0 => none
  | i, fuel + 1 =>
    match segment_valid_pct window high_loc min_days min_daily_pct i with
    | some pct => some (i, pct)
    | none => firstValidFrom window high_loc min_days min_daily_pct (i + 1) fuel

/-- Lookback window of find_big_move: the (up to) `max_lookback_days` = 90
bars ending at the candidate position (`df.iloc[start_idx:end_idx+1]`;
natural subtraction realises `max(0, end_idx - max_lookback)`). -/
def fbmWindow (df : List Row) (end_idx : ℕ) : List Row :=
  iloc df (end_idx - 90) (end_idx + 1)

/-- Swing-high location of find_big_move: the date and window position of
the window's maximum high, recomputed over the window minus its last three
bars when the maximum falls within those bars (the pre-breakout high cannot
be the breakout bar itself).  Date lookups the source performs on dates
taken from the window itself use `Option.getD 0`; they cannot miss. -/
def fbmHigh (window : List Row) : Int × ℕ :=
  let highs := window.map (·.high)
  let high_date0 := (ilocRow window (idxmaxCol highs)).date
  let high_loc0 := (getLoc window high_date0).getD 0
  if window.length - 3 ≤ high_loc0 then
    let prev_window := iloc window 0 (window.length - 3)
    if prev_window.isEmpty then (high_date0, high_loc0)
    else
      let phighs := prev_window.map (·.high)
      let hd := (ilocRow prev_window (idxmaxCol phighs)).date
      (hd, (getLoc window hd).getD 0)
  else (high_date0, high_loc0)

/-- Uptrend Locator (find_big_move): bounded lookback window, swing-high
location with the end-of-window adjustment, earliest-first search for a
valid uptrend segment, and the local-minimum refinement of the start.
Returns `(found, uptrend start date, swing high date, total gain pct)`. -/
def find_big_move (df : List Row) (end_date : Int) (min_days : ℕ) (min_daily_pct : ℚ) :
    Bool × Option Int × Option Int × ℚ :=
  match getLoc df end_date with
  | none => (false, none, none, 0)
  | some end_idx =>
    let window := fbmWindow df end_idx
    if window.length < min_days then (false, none, none, 0)
    else
      let adjusted := fbmHigh window
      let high_date := adjusted.1
      let high_loc := adjusted.2
      if high_loc ≤ 3 then (false, none, none, 0)
      else if high_loc = 0 then (false, none, none, 0)
      else
        match firstValidFrom window high_loc min_days min_daily_pct 0 high_loc with
        | none => (false, none, none, 0)
        | some (first_valid_idx, valid_total_pct) =>
          let keepOriginal :=
            (true, some ((ilocRow window first_valid_idx).date), some high_date, valid_total_pct)
          let search_end : ℤ := min ((first_valid_idx : ℤ) + 20) ((high_loc : ℤ) - (min_days : ℤ))
          if (first_valid_idx : ℤ) < search_end then
            let search_segment := iloc window first_valid_idx (search_end.toNat + 1)
            if search_segment.isEmpty then keepOriginal
            else
              let lows := search_segment.map (·.low)
              let min_idx := (ilocRow search_segment (idxminCol lows)).date
              let min_loc := (getLoc window min_idx).getD 0
              if (min_loc : ℤ) < (high_loc : ℤ) - (min_days : ℤ) then
                let seg := iloc window min_loc (high_loc + 1)
                let days_in_segment : ℤ :=
                  max 1 ((ilocRow seg (seg.length - 1)).date - (ilocRow seg 0).date)
                if (min_days : ℤ) ≤ days_in_segment then
                  (true, some ((ilocRow window min_loc).date), some high_date, valid_total_pct)
                else keepOriginal
              else keepOriginal
          else keepOriginal

/-- CONFIG thresholds of the stricter configuration in the file
(quality_breakouts.CONFIG). -/
def min_uptrend_days : ℕ := 15

/-- CONFIG `min_daily_uptrend_pct`. -/
def min_daily_uptrend_pct : ℚ := 0.7

/-- CONFIG `max_consolidation_drop`. -/
def max_consolidation_drop : ℚ := 0.30

/-- CONFIG `exception_threshold`. -/
def exception_threshold_cfg : ℚ := 0.35

/-- CONFIG `max_exception_days`. -/
def max_exception_days_cfg : ℕ := 2

/-- CONFIG `min_pullback_pct`. -/
def min_pullback_pct_cfg : ℚ := 0.04

/-- CONFIG `spacing_days` (used only for the near-duplicate filter inside
evaluate_candidate; the Selector has its own default parameter of 30). -/
def spacing_days_cfg : ℕ := 20

/-- CONFIG `min_days_from_high`. -/
def min_days_from_high : ℕ := 14

/-- CONFIG `max_days_from_high`. -/
def max_days_from_high : ℕ := 60

/-- Breakout record dictionary as process_breakout builds and returns it
(its `breakout_data` literal).  The keys score_breakouts reads through
`dict.get` with a default are modelled as `Option` fields; process_breakout
never sets `max_drop_pct` or `exception_days`, so they are `none` on every
record it produces. -/
structure BreakoutData where
  ticker : String
  breakout_date : Int
  low_date : Int
  high_date : Int
  category : ℤ
  cross_idx : ℕ
  pullback_pct : Option ℚ
  output_path : String
  max_drop_pct : Option ℚ := none
  exception_days : Option ℕ := none
deriving Repr, DecidableEq

/-- Details dictionary returned by evaluate_candidate for an approved
candidate. -/
structure CandidateDetails where
  focus_date : Int
  move_start_date : Int
  high_date : Int
  low_date : Int
  category : ℤ
  cross_idx : ℕ
deriving Repr, DecidableEq

/-- Python truthiness of an optional float (`if sma10_start and ...`): a value
that is present and nonzero. -/
def truthyQ (o : Option ℚ) : Bool :=
  match o with
  | none => false
  | some x => decide (x ≠ 0)

/-- Value behind an optional float once its truthiness is known. -/
def optVal (o : Option ℚ) : ℚ := o.getD 0

/-- Violation of the rising-average requirement for one moving average pair
inside evaluate_candidate's surfing block
(`if smaN_start and smaN_end and smaN_end <= smaN_start * 0.98`). -/
def riseViolation (s e : Option ℚ) : Bool :=
  truthyQ s && truthyQ e && decide (optVal e ≤ optVal s * 0.98)

/-- Touch-or-hold test of one row against one moving average inside the
surfing block (`smaN and low <= smaN * 1.02 and close >= smaN * 0.98`). -/
def touchesMA (low close : ℚ) (sma : Option ℚ) : Bool :=
  truthyQ sma && decide (low ≤ optVal sma * 1.02) && decide (optVal sma * 0.98 ≤ close)

/-- Recent candle-distribution filter of evaluate_candidate: the up-close
ratio of the (up to) 21 bars ending at the candidate must not exceed 0.85. -/
def ec_green_fail (df : List Row) (idx : ℕ) : Bool :=
  let recent_window := iloc df (idx - 20) (idx + 1)
  let green_ratio :=
    ((recent_window.countP (fun r => decide (r.open_ < r.close))) : ℚ) / (recent_window.length : ℚ)
  decide (0.85 < green_ratio)

/-- Breakout-day filter of evaluate_candidate: with a truthy previous high,
the candidate's high must exceed it by more than 0.5%
(`current_high <= prev_high * 1.005` rejects). -/
def ec_prev_high_fail (df : List Row) (idx : ℕ) : Bool :=
  if 0 < idx then
    decide ((ilocRow df (idx - 1)).high ≠ 0) &&
    decide ((ilocRow df idx).high ≤ (ilocRow df (idx - 1)).high * 1.005)
  else false

/-- Ten-day trend filter of evaluate_candidate: the close-to-close change
over the last 10 bars must reach 3%. -/
def ec_trend_fail (df : List Row) (idx : ℕ) : Bool :=
  if 10 ≤ idx then
    let recent_10 := iloc df (idx - 9) (idx + 1)
    let first_close := (ilocRow recent_10 0).close
    decide (((ilocRow recent_10 (recent_10.length - 1)).close - first_close) / first_close < 0.03)
  else false

/-- Containment gate of evaluate_candidate: the strict check, then — when it
fails — the relaxed check with ceiling
`min(max_consolidation_drop + 0.05, 0.5)`. -/
def ec_within_range (df : List Row) (high_point_idx idx : ℕ) : Bool :=
  check_price_within_range df ((ilocRow df high_point_idx).date) ((ilocRow df idx).date) ||
  check_price_within_range_relaxed df ((ilocRow df high_point_idx).date) ((ilocRow df idx).date)
    (min (max_consolidation_drop + 0.05) 0.5)

/-- Moving-average surfing gate of evaluate_candidate, checked only once at
least 50 bars precede the candidate: the 10- and 20-day averages must not
fall more than 2% across the consolidation, and price must touch-or-hold one
of the three averages on at least 40% of a consolidation of length ≥ 5. -/
def ec_surf_fail (df : List Row) (idx high_point_idx : ℕ) : Bool :=
  if 50 ≤ idx then
    if high_point_idx < idx then
      let rs := ilocRow df high_point_idx
      let re := ilocRow df idx
      let mas_rising := !(riseViolation rs.sma10 re.sma10) && !(riseViolation rs.sma20 re.sma20)
      let consolidation_segment := iloc df high_point_idx (idx + 1)
      let price_surfing :=
        if 5 ≤ consolidation_segment.length then
          decide ((0.4 : ℚ) ≤
            ((consolidation_segment.countP (fun r =>
              touchesMA r.low r.close r.sma10 || touchesMA r.low r.close r.sma20 ||
              touchesMA r.low r.close r.sma50)) : ℚ) / (consolidation_segment.length : ℚ))
        else false
      !mas_rising || !price_surfing
    else false
  else false

/-- Near-duplicate spacing filter of evaluate_candidate: another already
accepted breakout within `max(3, spacing_days // 2)` days rejects the
candidate. -/
def ec_duplicate (existing_breakouts : List BreakoutData) (focus_date : Int) : Bool :=
  existing_breakouts.any (fun b =>
    decide ((b.breakout_date - focus_date).natAbs < max 3 (spacing_days_cfg / 2)))

/-- Candidate evaluation (evaluate_candidate): all per-candidate filters in
source order — recent green-candle distribution, breakout high above the
previous high, positive 10-day trend, big-move search, time since the swing
high, containment (strict then relaxed), pattern length, orderly pullback,
moving-average surfing, near-duplicate spacing — then the SMA cross walk
and classification.  Returns the details dictionary for an approved
candidate, `none` for a rejected one (rejection-counter updates and logging
are not modelled). -/
def evaluate_candidate (df : List Row) (idx : ℕ)
    (existing_breakouts : List BreakoutData) : Option CandidateDetails :=
  if ec_green_fail df idx then none
  else if ec_prev_high_fail df idx then none
  else if ec_trend_fail df idx then none
  else
    match find_big_move df ((ilocRow df idx).date) min_uptrend_days min_daily_uptrend_pct with
    | (false, _, _, _) => none
    | (true, none, _, _) => none
    | (true, some _, none, _) => none
    | (true, some move_start_date, some high_date, _) =>
      match getLoc df move_start_date, getLoc df high_date with
      | some _move_start_idx, some high_point_idx =>
        if (ilocRow df idx).date - (ilocRow df high_point_idx).date < (min_days_from_high : ℤ) then
          none
        else if (max_days_from_high : ℤ) < (ilocRow df idx).date - (ilocRow df high_point_idx).date then
          none
        else if !(ec_within_range df high_point_idx idx) then none
        else if !(check_pattern_quality high_point_idx idx) then none
        else
          match check_orderly_pullback df ((ilocRow df high_point_idx).date) with
          | (pullback_result, low_date_opt, _pullback_pct) =>
            match low_date_opt, pullback_result with
            | none, _ => none
            | some _, false => none
            | some low_date, true =>
              if ec_surf_fail df idx high_point_idx then none
              else if ec_duplicate existing_breakouts ((ilocRow df idx).date) then none
              else
                let cross_idx := find_first_cross_below_sma df idx
                let category := determine_performance_category df idx cross_idx
                some { focus_date := (ilocRow df idx).date, move_start_date := move_start_date,
                       high_date := (ilocRow df high_point_idx).date, low_date := low_date,
                       category := category, cross_idx := cross_idx }
      | _, _ => none

/-- Scored tuple `(breakout_date, low_date, high_date, quality_score,
breakout, category)` appended by score_breakouts; field order follows the
tuple positions `x[0]`..`x[5]` of the source. -/
structure ScoredBreakout where
  breakout_date : Int
  low_date : Int
  high_date : Int
  quality_score : ℚ
  breakout : BreakoutData
  category : ℤ
deriving Repr, DecidableEq

/-- Quality scoring of one breakout record (the loop body of
score_breakouts): consolidation tightness from the stored `max_drop_pct`
(default 0.3) with a 10%-per-exception-day penalty, consolidation length
against a 60-day cap, pullback quality against the 4% minimum, and the
post-breakout gain for categories 3-4; weights 60/15/10/15.  The except
branch of the source — reached when a date lookup raises — appends the
record with score 0.0. -/
def scoreOne (df : List Row) (b : BreakoutData) : ScoredBreakout :=
  match getLoc df b.breakout_date, getLoc df b.high_date with
  | some idx, some _high_idx =>
    let max_drop_pct := b.max_drop_pct.getD 0.3
    let exception_days := b.exception_days.getD 0
    let pullback_pct := b.pullback_pct.getD 0.05
    let tightness_score := 1 - max_drop_pct / max_consolidation_drop
    let tightness_score :=
      if 0 < exception_days then tightness_score * (1 - 0.1 * (exception_days : ℚ))
      else tightness_score
    let tightness_score := max 0 (min 1 tightness_score)
    let cons_days : ℤ := b.breakout_date - b.high_date
    let days_score := min ((cons_days : ℚ) / 60) 1
    let pullback_score := max 0 (min ((pullback_pct - min_pullback_pct_cfg) / 0.10) 1)
    let gain_score :=
      if (b.category = 3 ∨ b.category = 4) ∧ b.cross_idx < df.length then
        let breakout_price := (ilocRow df idx).close
        let segment := iloc df idx (b.cross_idx + 1)
        if !segment.isEmpty then
          min ((colMax (segment.map (·.high)) - breakout_price) / breakout_price) 1
        else 0
      else 0
    { breakout_date := b.breakout_date, low_date := b.low_date, high_date := b.high_date,
      quality_score := tightness_score * 0.60 + pullback_score * 0.15 +
        days_score * 0.10 + gain_score * 0.15,
      breakout := b, category := b.category }
  | _, _ =>
    { breakout_date := b.breakout_date, low_date := b.low_date, high_date := b.high_date,
      quality_score := 0, breakout := b, category := b.category }

/-- Scorer (score_breakouts): score every valid breakout, then sort by
quality score, highest first (`sort(key=lambda x: x[3], reverse=True)`,
which is stable). -/
def score_breakouts (df : List Row) (valid_breakouts : List BreakoutData) : List ScoredBreakout :=
  (valid_breakouts.map (scoreOne df)).mergeSort
    (fun a b => decide (b.quality_score ≤ a.quality_score))

/-- One step of the Selector's greedy loop (the body of
`for ... in sorted_breakouts` in select_with_spacing): state is
`(selected_breakouts, date_spans)`; the candidate is appended to both when
its `[breakout_date - spacing, breakout_date + spacing]` span overlaps no
stored span. -/
def selStep (min_spacing_days : ℤ) (st : List BreakoutData × List (Int × Int))
    (t : ScoredBreakout) : List BreakoutData × List (Int × Int) :=
  let breakout_date := t.breakout.breakout_date
  let mn := breakout_date - min_spacing_days
  let mx := breakout_date + min_spacing_days
  let overlaps := st.2.any (fun sp => decide (mn ≤ sp.2) && decide (sp.1 ≤ mx))
  if overlaps then st else (st.1 ++ [t.breakout], st.2 ++ [(mn, mx)])

/-- Selector (select_with_spacing): re-sort the scored tuples by
`x[5]` — the performance category — highest first (a stable sort, so the
incoming quality-score order breaks category ties), run the greedy
span-overlap loop, and return the accepted records in chronological order.
The default spacing parameter of the source is 30 days. -/
def select_with_spacing (scored_breakouts : List ScoredBreakout)
    (min_spacing_days : ℤ := 30) : List BreakoutData :=
  if scored_breakouts.isEmpty then []
  else
    let sorted_breakouts := scored_breakouts.mergeSort
      (fun a b => decide (b.category ≤ a.category))
    let st := sorted_breakouts.foldl (selStep min_spacing_days) ([], [])
    st.1.mergeSort (fun a b => decide (a.breakout_date ≤ b.breakout_date))

/-- Specification-level greedy acceptance over an already-ordered list of
scored tuples: accept a tuple exactly when its breakout date is more than
`2 * min_spacing_days` days from every accepted breakout (equivalently, its
spacing window overlaps no accepted window).  Stated from the amended
Selector description, for comparison with select_with_spacing. -/
def selectSpecGreedy (min_spacing_days : ℤ) :
    List BreakoutData → List ScoredBreakout → List BreakoutData
  | acc, [] => acc
  | acc, t :: ts =>
    if acc.all (fun b =>
        decide (2 * min_spacing_days < |t.breakout.breakout_date - b.breakout_date|)) then
      selectSpecGreedy min_spacing_days (acc ++ [t.breakout]) ts
    else selectSpecGreedy min_spacing_days acc ts

/-- Specification-level Selector: stable-sort the scored tuples by
performance category (highest first), run the greedy distance acceptance,
and return the accepted records chronologically.  Stated from the amended
Selector description, for comparison with select_with_spacing. -/
def select_spec (scored : List ScoredBreakout) (min_spacing_days : ℤ) : List BreakoutData :=
  (selectSpecGreedy min_spacing_days []
    (scored.mergeSort (fun a b => decide (b.category ≤ a.category)))).mergeSort
    (fun a b => decide (a.breakout_date ≤ b.breakout_date))

/-- Abstract serialized JSON artifact; what write_json's verification can
observe of it is its byte size (output of `json.dump` always re-parses as
JSON, so the parse-back step can only fail through external interference,
which is not modelled). -/
structure Artifact where
  size : ℕ
deriving Repr, DecidableEq

/-- Outcomes of the filesystem operations one write_json call may attempt:
per attempt k, whether the temp-file write succeeds, whether `os.replace`
succeeds, and whether the unlink-then-replace retry succeeds; plus whether
the final direct fallback write succeeds. -/
structure FsEnv where
  tmpOk : ℕ → Bool
  renameOk : ℕ → Bool
  unlinkRenameOk : ℕ → Bool
  directOk : Bool

/-- Attempt loop of write_json over the target file state: three atomic
attempts (temp write then rename; when the target exists and the rename
fails, unlink it and rename again — a failed retry leaves the target
removed), then the direct non-atomic fallback.  Returns
(wrote, file state, content landed via rename). -/
def writeAttemptLoop (env : FsEnv) (d : Artifact) :
    ℕ → ℕ → Option Artifact → Bool × Option Artifact × Bool
  | _, 0, file =>
    if env.directOk then (true, some d, false) else (false, file, false)
  | attempt, fuel + 1, file =>
    if env.tmpOk attempt then
      if env.renameOk attempt then (true, some d, true)
      else if file.isSome then
        if env.unlinkRenameOk attempt then (true, some d, true)
        else writeAttemptLoop env d (attempt + 1) fuel none
      else writeAttemptLoop env d (attempt + 1) fuel file
    else writeAttemptLoop env d (attempt + 1) fuel file

/-- Artifact writer (write_json): up to three atomic attempts, a direct
non-atomic fallback write when all three fail, then verification — the
target must exist, have at least 10 bytes and parse back as JSON.  Returns
the reported Boolean, the final file state, and whether the content landed
via an atomic rename. -/
def write_json (env : FsEnv) (d : Artifact) (file0 : Option Artifact) :
    Bool × Option Artifact × Bool :=
  match writeAttemptLoop env d 0 3 file0 with
  | (false, file, atomic) => (false, file, atomic)
  | (true, file, atomic) =>
    match file with
    | none => (false, none, atomic)
    | some f => if f.size < 10 then (false, some f, atomic) else (true, some f, atomic)

/-- File-writing portion of process_breakout (the claim's cited region):
create_files writes points.json through write_json and its Boolean result
is discarded; D.json and after.json are each written through write_json and
re-verified (exists, at least 10 bytes), any failure aborting the episode
(`return None`).  The numeric quality checks interleaved with these writes
in the source are independent of the write contract and outside this
definition.  Returns the final (points, D, after) file states when the
episode survives. -/
def process_breakout_writes (envP envD envA : FsEnv) (points dArt afterArt : Artifact) :
    Option (Option Artifact × Artifact × Artifact) :=
  let pointsFile := (write_json envP points none).2.1
  match write_json envD dArt none with
  | (false, _, _) => none
  | (true, dFile, _) =>
    match dFile with
    | none => none
    | some dF =>
      if dF.size < 10 then none
      else
        match write_json envA afterArt none with
        | (false, _, _) => none
        | (true, aFile, _) =>
          match aFile with
          | none => none
          | some aF =>
            if aF.size < 10 then none
            else some (pointsFile, dF, aF)

/-- Breakout record literal of process_breakout (its `breakout_data`
dictionary): the produced record has no `max_drop_pct` and no
`exception_days` key, so both Option fields are `none`. -/
def process_breakout_record (ticker : String) (focus_date low_date cons_start : Int)
    (category : ℤ) (cross_idx : ℕ) (pullback_pct : ℚ) (output_path : String) : BreakoutData :=
  { ticker := ticker, breakout_date := focus_date, low_date := low_date,
    high_date := cons_start, category := category, cross_idx := cross_idx,
    pullback_pct := some pullback_pct, output_path := output_path }

/-- Concrete 37-bar series on which evaluate_candidate approves position 35:
a 50% uptrend over bars 0-19 ending at a swing high of 150, a 16-day
consolidation whose lows sit exactly at the 30% drop ceiling except for
three days (bars 30-32) that dip to a 1/3 drop — inside the severe
threshold 0.35 but one day more than `max_exception_days` allows — a
breakout bar at position 35 with a decisive higher high, and one
post-breakout bar whose close sits below its 20-day average.  Fields per
row: date, open, high, low, close, volume, sma10, sma20, sma50. -/
def exDf4 : List Row :=
  [ ⟨0, 100, 101, 99, 100, 1000, none, none, none⟩,
    ⟨1, 102, 103, 101, 102, 1000, none, none, none⟩,
    ⟨2, 104, 105, 103, 104, 1000, none, none, none⟩,
    ⟨3, 106, 107, 105, 106, 1000, none, none, none⟩,
    ⟨4, 108, 109, 107, 108, 1000, none, none, none⟩,
    ⟨5, 110, 111, 109, 110, 1000, none, none, none⟩,
    ⟨6, 112, 113, 111, 112, 1000, none, none, none⟩,
    ⟨7, 114, 115, 113, 114, 1000, none, none, none⟩,
    ⟨8, 116, 117, 115, 116, 1000, none, none, none⟩,
    ⟨9, 118, 119, 117, 118, 1000, none, none, none⟩,
    ⟨10, 120, 121, 119, 120, 1000, none, none, none⟩,
    ⟨11, 122, 123, 121, 122, 1000, none, none, none⟩,
    ⟨12, 124, 125, 123, 124, 1000, none, none, none⟩,
    ⟨13, 126, 127, 125, 126, 1000, none, none, none⟩,
    ⟨14, 128, 129, 127, 128, 1000, none, none, none⟩,
    ⟨15, 130, 131, 129, 130, 1000, none, none, none⟩,
    ⟨16, 132, 133, 131, 132, 1000, none, none, none⟩,
    ⟨17, 134, 135, 133, 134, 1000, none, none, none⟩,
    ⟨18, 136, 137, 135, 136, 1000, none, none, none⟩,
    ⟨19, 140, 150, 139, 140, 1000, none, none, none⟩,
    ⟨20, 107, 107, 105, 106, 1000, none, none, none⟩,
    ⟨21, 107, 107, 105, 106, 1000, none, none, none⟩,
    ⟨22, 107, 107, 105, 106, 1000, none, none, none⟩,
    ⟨23, 107, 107, 105, 106, 1000, none, none, none⟩,
    ⟨24, 107, 107, 105, 106, 1000, none, none, none⟩,
    ⟨25, 107, 107, 105, 106, 1000, none, none, none⟩,
    ⟨26, 107, 107, 105, 106, 1000, none, none, none⟩,
    ⟨27, 107, 107, 105, 106, 1000, none, none, none⟩,
    ⟨28, 107, 107, 105, 106, 1000, none, none, none⟩,
    ⟨29, 107, 107, 105, 106, 1000, none, none, none⟩,
    ⟨30, 107, 107, 100, 106, 1000, none, none, none⟩,
    ⟨31, 107, 107, 100, 106, 1000, none, none, none⟩,
    ⟨32, 107, 107, 100, 106, 1000, none, none, none⟩,
    ⟨33, 107, 107, 105, 106, 1000, none, none, none⟩,
    ⟨34, 107, 107, 105, 106, 1000, none, none, none⟩,
    ⟨35, 110, 120, 110, 120, 5000, none, none, none⟩,
    ⟨36, 50, 51, 49, 50, 1000, none, some 1000, none⟩ ]

/-- Bar `i` of a raw 131-bar input: five valid pre-1990 up-close bars
followed by 126 valid bars from 1990-01-01 onward, 113 of which close above
their open.  Raw up-close ratio 118/131 (just above 0.9); ratio after the
date filter 113/126 (just below 0.9). -/
def exLoadBar (i : ℕ) : RawBar :=
  if i < 5 then
    { date := min_date - 5 + (i : ℤ), open_ := 999, high := 1002, low := 998,
      close := 1000, volume := 500 }
  else
    { date := min_date + ((i : ℤ) - 5), open_ := if i - 5 < 113 then 999 else 1002,
      high := 1002, low := 998,
      close := if (i - 5) % 2 = 0 then 1000 else 1001, volume := 500 }

/-- Concrete raw input accepted by the Loader although more than 90% of its
days close above their open. -/
def exRaw10 : List RawBar := (List.range 131).map exLoadBar

/-- Bar `i` of a raw 126-bar input that survives the date filter unchanged
and has a 117/126 (about 93%) up-close ratio. -/
def exRejBar (i : ℕ) : RawBar :=
  { date := min_date + (i : ℤ), open_ := if i < 117 then 999 else 1002,
    high := 1002, low := 998, close := if i % 2 = 0 then 1000 else 1001, volume := 500 }

/-- Concrete raw input the Loader rejects at the up-close ratio gate. -/
def exRawReject : List RawBar := (List.range 126).map exRejBar

/-- Three-row frame carrying the dates referenced by the two selector
records. -/
def exDfSel : List Row :=
  [ { date := 40, open_ := 10, high := 11, low := 9, close := 10, volume := 1,
      sma10 := none, sma20 := none, sma50 := none },
    { date := 100, open_ := 10, high := 11, low := 9, close := 10, volume := 1,
      sma10 := none, sma20 := none, sma50 := none },
    { date := 120, open_ := 10, high := 11, low := 9, close := 10, volume := 1,
      sma10 := none, sma20 := none, sma50 := none } ]

/-- Selector record with quality score 0.25 (category 2): a 60-day
consolidation and a 14% pullback. -/
def exBrA : BreakoutData :=
  { ticker := "T", breakout_date := 100, low_date := 50, high_date := 40, category := 2,
    cross_idx := 999, pullback_pct := some 0.14, output_path := "" }

/-- Selector record with quality score 0 (category 4): zero-day
consolidation, minimal pullback, no gain contribution. -/
def exBrB : BreakoutData :=
  { ticker := "T", breakout_date := 120, low_date := 120, high_date := 120, category := 4,
    cross_idx := 999, pullback_pct := some 0.04, output_path := "" }

/-- Four-row frame for the classifier walk: the 20-day average is missing on
the breakout row, not crossed on row 1, first crossed on row 2. -/
def exDfC5 : List Row :=
  [ { date := 0, open_ := 100, high := 101, low := 99, close := 100, volume := 1,
      sma10 := none, sma20 := none, sma50 := none },
    { date := 1, open_ := 100, high := 101, low := 99, close := 100, volume := 1,
      sma10 := none, sma20 := some 90, sma50 := none },
    { date := 2, open_ := 100, high := 101, low := 99, close := 95, volume := 1,
      sma10 := none, sma20 := some 96, sma50 := none },
    { date := 3, open_ := 100, high := 101, low := 99, close := 100, volume := 1,
      sma10 := none, sma20 := some 90, sma50 := none } ]

/-- Write environment in which every atomic attempt's rename fails but the
direct fallback write succeeds. -/
def renameFailEnv : FsEnv :=
  { tmpOk := fun _ => true, renameOk := fun _ => false,
    unlinkRenameOk := fun _ => false, directOk := true }

/-- Write environment in which nothing can be written at all. -/
def deadEnv : FsEnv :=
  { tmpOk := fun _ => false, renameOk := fun _ => false,
    unlinkRenameOk := fun _ => false, directOk := false }

/-- Write environment in which the first atomic attempt succeeds. -/
def okEnv : FsEnv :=
  { tmpOk := fun _ => true, renameOk := fun _ => true,
    unlinkRenameOk := fun _ => true, directOk := true }

def exW4 : List Row := exDf4.take 36

/-- Bars of exRaw10 that survive the Loader's date filter and invalid-row
removal. -/
def exRaw10kept : List RawBar :=
  (exRaw10.filter (fun b => decide (min_date ≤ b.date))).filter (fun b => !(invalidRow b))

set_option maxRecDepth 10000 in
theorem exW4_window : fbmWindow exDf4 35 = exW4 := by decide

set_option maxRecDepth 10000 in
theorem exW4_fbmHigh : fbmHigh exW4 = (19, 19) := by decide

set_option maxRecDepth 10000 in
set_option maxHeartbeats 1600000 in
theorem exW4_seg0 : segment_valid_pct exW4 19 15 min_daily_uptrend_pct 0 = some 50 := by
  norm_num [segment_valid_pct, min_daily_uptrend_pct, exW4, exDf4, iloc, ilocRow, colMax,
    colMean, max_def, min_def, List.countP_cons, List.zip, List.zipWith]

theorem exW4_firstValid :
    firstValidFrom exW4 19 15 min_daily_uptrend_pct 0 19 = some (0, 50) := by
  rw [firstValidFrom, exW4_seg0]

set_option maxRecDepth 10000 in
set_option maxHeartbeats 1600000 in
theorem exDf4_fbm :
    find_big_move exDf4 35 min_uptrend_days min_daily_uptrend_pct = (true, some 0, some 19, 50) := by
  have hloc : getLoc exDf4 35 = some 35 := by decide
  have hrefine : (iloc exW4 0 5).isEmpty = false := by decide
  norm_num [find_big_move, hloc, exW4_window, exW4_fbmHigh, exW4_firstValid, min_uptrend_days,
    min_def]
  decide

set_option maxRecDepth 10000 in
theorem exDf4_length : exDf4.length = 37 := by decide

set_option maxRecDepth 10000 in
theorem ex4_row35 : ilocRow exDf4 35 = ⟨35, 110, 120, 110, 120, 5000, none, none, none⟩ := by
  decide

set_option maxRecDepth 10000 in
theorem ex4_row34 : ilocRow exDf4 34 = ⟨34, 107, 107, 105, 106, 1000, none, none, none⟩ := by
  decide

set_option maxRecDepth 10000 in
theorem ex4_row19 : ilocRow exDf4 19 = ⟨19, 140, 150, 139, 140, 1000, none, none, none⟩ := by
  decide

set_option maxRecDepth 10000 in
theorem ex4_green : (iloc exDf4 15 36).countP (fun r => decide (r.open_ < r.close)) = 1 := by
  decide

set_option maxRecDepth 10000 in
theorem ex4_greenLen : (iloc exDf4 15 36).length = 21 := by decide

set_option maxRecDepth 10000 in
theorem ex4_r10len : (iloc exDf4 26 36).length = 10 := by decide

set_option maxRecDepth 10000 in
theorem ex4_trendFirst : ilocRow (iloc exDf4 26 36) 0 =
    ⟨26, 107, 107, 105, 106, 1000, none, none, none⟩ := by decide

set_option maxRecDepth 10000 in
theorem ex4_trendLast : ilocRow (iloc exDf4 26 36) 9 =
    ⟨35, 110, 120, 110, 120, 5000, none, none, none⟩ := by decide

set_option maxRecDepth 10000 in
theorem ex4_gl0 : getLoc exDf4 0 = some 0 := by decide

set_option maxRecDepth 10000 in
theorem ex4_gl19 : getLoc exDf4 19 = some 19 := by decide

set_option maxRecDepth 10000 in
theorem ex4_gl35 : getLoc exDf4 35 = some 35 := by decide

set_option maxRecDepth 10000 in
theorem ex4_consMin : colMin ((iloc exDf4 19 36).map (·.low)) = 100 := by decide

set_option maxRecDepth 10000 in
theorem ex4_range : check_price_within_range exDf4 19 35 = false := by
  norm_num [check_price_within_range, ex4_gl19, ex4_gl35, ex4_row19, ex4_consMin]

set_option maxRecDepth 10000 in
theorem ex4_relaxed :
    check_price_within_range_relaxed exDf4 19 35 ((max_consolidation_drop + 1/20) ⊓ 1/2) = true := by
  norm_num [check_price_within_range_relaxed, ex4_gl19, ex4_gl35, ex4_row19, ex4_consMin,
    max_consolidation_drop, min_def]

set_option maxRecDepth 10000 in
theorem ex4_pbMin : colMin ((iloc exDf4 20 35).map (·.low)) = 100 := by decide

set_option maxRecDepth 10000 in
theorem ex4_pbIdxmin : idxminCol ((iloc exDf4 20 35).map (·.low)) = 10 := by decide

set_option maxRecDepth 10000 in
theorem ex4_pbRow : ilocRow (iloc exDf4 20 35) 10 = ⟨30, 107, 107, 100, 106, 1000, none, none, none⟩ := by
  decide

set_option maxRecDepth 10000 in
theorem ex4_pbEmpty : (iloc exDf4 20 35).isEmpty = false := by decide

set_option maxRecDepth 10000 in
theorem ex4_pullback : check_orderly_pullback exDf4 19 = (true, some 30, 1/3) := by
  norm_num [check_orderly_pullback, ex4_gl19, ex4_row19, ex4_pbMin, ex4_pbIdxmin, ex4_pbRow,
    ex4_pbEmpty, min_def, exDf4_length, List.isEmpty_iff]

set_option maxRecDepth 10000 in
theorem ex4_cross : find_first_cross_below_sma exDf4 35 = 36 := by decide

set_option maxRecDepth 10000 in
theorem ex4_row36 : ilocRow exDf4 36 = ⟨36, 50, 51, 49, 50, 1000, none, some 1000, none⟩ := by
  decide

set_option maxRecDepth 10000 in
theorem ex4_cat : determine_performance_category exDf4 35 36 = 1 := by
  norm_num [determine_performance_category, ex4_row35, ex4_row36, exDf4_length]

set_option maxRecDepth 10000 in
theorem ex4_pq : check_pattern_quality 19 35 = true := by decide

set_option maxRecDepth 10000 in
theorem ex4_g1 : ec_green_fail exDf4 35 = false := by
  norm_num [ec_green_fail, ex4_green, ex4_greenLen]

set_option maxRecDepth 10000 in
theorem ex4_g2 : ec_prev_high_fail exDf4 35 = false := by
  norm_num [ec_prev_high_fail, ex4_row34, ex4_row35]

set_option maxRecDepth 10000 in
theorem ex4_g3 : ec_trend_fail exDf4 35 = false := by
  norm_num [ec_trend_fail, ex4_r10len, ex4_trendFirst, ex4_trendLast]

set_option maxRecDepth 10000 in
theorem ex4_g4 : ec_within_range exDf4 19 35 = true := by
  rw [ec_within_range, ex4_row19, ex4_row35]
  rw [show (⟨19, 140, 150, 139, 140, 1000, none, none, none⟩ : Row).date = 19 from rfl]
  rw [show (⟨35, 110, 120, 110, 120, 5000, none, none, none⟩ : Row).date = 35 from rfl]
  rw [ex4_range]
  norm_num
  have := ex4_relaxed
  norm_num [min_def, max_consolidation_drop] at this ⊢
  exact this

theorem ex4_g5 : ec_surf_fail exDf4 35 19 = false := by decide

theorem ex4_g6 : ec_duplicate [] 35 = false := by decide

set_option maxRecDepth 10000 in
set_option maxHeartbeats 1600000 in
theorem exDf4_eval :
    evaluate_candidate exDf4 35 [] = some ⟨35, 0, 19, 30, 1, 36⟩ := by
  rw [evaluate_candidate, ex4_row35]
  rw [show (⟨35, 110, 120, 110, 120, 5000, none, none, none⟩ : Row).date = 35 from rfl]
  rw [ex4_g1, ex4_g2, ex4_g3, exDf4_fbm]
  simp only [ex4_gl0, ex4_gl19, ex4_row19, ex4_g4, ex4_pullback, ex4_g5, ex4_g6, ex4_cross,
    ex4_cat, ex4_row35, Bool.not_true, Bool.not_false, if_false, if_true]
  norm_num [check_pattern_quality, min_days_from_high, max_days_from_high]

theorem dropDupDatesAux_of_pairwise : ∀ (l : List RawBar) (seen : List Int),
    (∀ b ∈ l, b.date ∉ seen) → l.Pairwise (fun a b => a.date ≠ b.date) →
    dropDupDatesAux l seen = l := by
  intro l
  induction l with
  | nil => intro seen _ _; rfl
  | cons b rest ih =>
    intro seen hseen hpw
    rw [dropDupDatesAux]
    rw [if_neg (hseen b (List.mem_cons_self b rest))]
    rw [ih (b.date :: seen) ?_ (List.Pairwise.sublist (List.sublist_cons_self b rest) hpw)]
    intro c hc
    simp only [List.mem_cons]
    push_neg
    refine ⟨?_, hseen c (List.mem_cons_of_mem b hc)⟩
    intro hcb
    exact ((List.pairwise_cons.mp hpw).1 c hc) hcb.symm

theorem dropDupDates_of_pairwise (l : List RawBar)
    (hpw : l.Pairwise (fun a b => a.date ≠ b.date)) : dropDupDates l = l := by
  exact dropDupDatesAux_of_pairwise l [] (by simp) hpw

theorem addSmas_length (l : List RawBar) : (addSmas l).length = l.length := by
  simp [addSmas]

theorem read_stock_data_some (data df1 df2 : List RawBar)
    (hdf1 : df1 = data.filter (fun b => decide (min_date ≤ b.date)))
    (hdf2 : df2 = df1.filter (fun b => !(invalidRow b)))
    (h1 : data.isEmpty = false)
    (h2 : ∃ b ∈ data, min_date ≤ b.date)
    (h3 : ¬ df1.length < 126)
    (h4 : ¬ ((df1.countP invalidRow : ℚ) > (df1.length : ℚ) * 0.05))
    (h5 : ¬ (0 < df2.length ∧
      ((df2.countP (fun b => decide (b.close > b.open_)) : ℚ) / (df2.length : ℚ) > 0.9)))
    (h6 : df2.Pairwise (fun a b => a.date ≠ b.date))
    (h7 : ¬ df2.length < 126)
    (h8 : extremeMove df2 = false)
    (h9 : ¬ ((unchangedDays df2 : ℚ) > (df2.length : ℚ) * 0.1))
    (h10 : ¬ (20 < df2.length ∧ volumeVarianceBad df2 = true)) :
    read_stock_data data = some (addSmas df2) := by
  rw [read_stock_data]
  rw [if_neg (by simp [h1])]
  obtain ⟨b, hb, hbd⟩ := h2
  cases hm : (data.map (·.date)).max? with
  | none =>
    rw [List.max?_eq_none_iff] at hm
    rw [List.map_eq_nil_iff] at hm
    subst hm; simp at hb
  | some m =>
    have hle : ∀ x ∈ data.map (·.date), x ≤ m :=
      (List.max?_le_iff (fun a b c => max_le_iff) hm).1 le_rfl
    have hmind : min_date ≤ m :=
      le_trans hbd (hle _ (List.mem_map_of_mem _ hb))
    simp only [hm]
    rw [if_neg (by omega)]
    rw [← hdf1, if_neg h3, if_neg h4, ← hdf2, if_neg h5]
    rw [dropDupDates_of_pairwise _ h6]
    rw [if_neg h7, if_neg (by simp [h8]), if_neg h9, if_neg h10]
    rw [if_pos (by simp only [check_data_quality, addSmas_length]; exact decide_eq_true (by omega))]

theorem read_stock_data_green_reject (data : List RawBar)
    (hdates : ∀ b ∈ data, min_date ≤ b.date)
    (hvalid : ∀ b ∈ data, invalidRow b = false)
    (hratio : ((data.countP (fun b => decide (b.close > b.open_)) : ℚ) / (data.length : ℚ) > 0.9)) :
    read_stock_data data = none := by
  have hne : data ≠ [] := by
    rintro rfl
    norm_num at hratio
  rw [read_stock_data]
  rw [if_neg (by simp [hne])]
  cases hm : (data.map (·.date)).max? with
  | none => simp only [hm]
  | some m =>
    simp only [hm]
    have hmem := List.max?_mem (fun a b => max_choice a b) hm
    rw [List.mem_map] at hmem
    obtain ⟨b, hb, rfl⟩ := hmem
    rw [if_neg (not_lt.mpr (hdates b hb))]
    have hfil : data.filter (fun b => decide (min_date ≤ b.date)) = data :=
      List.filter_eq_self.mpr (fun c hc => decide_eq_true (hdates c hc))
    rw [hfil]
    by_cases hlen : data.length < 126
    · rw [if_pos hlen]
    · rw [if_neg hlen]
      have hcount : data.countP invalidRow = 0 := by
        rw [List.countP_eq_zero]
        intro c hc
        simp [hvalid c hc]
      rw [hcount]
      rw [if_neg (by push_neg; positivity)]
      have hfil2 : data.filter (fun b => !(invalidRow b)) = data :=
        List.filter_eq_self.mpr (fun c hc => by simp [hvalid c hc])
      rw [hfil2]
      rw [if_pos ⟨List.length_pos.mpr hne, hratio⟩]

set_option maxRecDepth 40000 in
theorem k2 : (exRaw10.filter (fun b => decide (min_date ≤ b.date))).length = 126 := by decide

set_option maxRecDepth 40000 in
theorem k1 : exRaw10kept.length = 126 := by decide

set_option maxRecDepth 40000 in
theorem k3 : (exRaw10.filter (fun b => decide (min_date ≤ b.date))).countP invalidRow = 0 := by
  decide

set_option maxRecDepth 40000 in
theorem k4 : exRaw10kept.countP (fun b => decide (b.close > b.open_)) = 113 := by decide

set_option maxRecDepth 40000 in
theorem k5 : exRaw10kept.Pairwise (fun a b => a.date ≠ b.date) := by decide

set_option maxRecDepth 40000 in
theorem k7 : unchangedDays exRaw10kept = 0 := by decide

set_option maxRecDepth 40000 in
set_option maxHeartbeats 3200000 in
theorem k6 : extremeMove exRaw10kept = false := by
  norm_num [extremeMove, exRaw10kept, exRaw10, exLoadBar, min_date, List.range_succ,
    List.zip, List.zipWith, invalidRow, abs_le]

set_option maxRecDepth 40000 in
set_option maxHeartbeats 3200000 in
theorem k8 : volumeVarianceBad exRaw10kept = false := by
  norm_num [volumeVarianceBad, colMean, exRaw10kept, exRaw10, exLoadBar, min_date,
    List.range_succ, invalidRow]

set_option maxRecDepth 40000 in
theorem exRaw10_eval : read_stock_data exRaw10 = some (addSmas exRaw10kept) := by
  apply read_stock_data_some exRaw10 (exRaw10.filter (fun b => decide (min_date ≤ b.date)))
    exRaw10kept rfl rfl
  · decide
  · exact ⟨exLoadBar 8, by decide, by decide⟩
  · rw [k2]; omega
  · rw [k3, k2]; norm_num
  · rw [k4, k1]; norm_num
  · exact k5
  · rw [k1]; omega
  · exact k6
  · rw [k7, k1]; norm_num
  · rw [k1]
    simp [k8]

theorem span_overlap_iff (a b s : ℤ) :
    (decide (b - s ≤ a + s) && decide (a - s ≤ b + s)) = !decide (2 * s < |b - a|) := by
  rcases le_total a b with h | h
  · rw [abs_of_nonneg (by omega : (0:ℤ) ≤ b - a)]
    by_cases hc : 2 * s < b - a
    · simp only [decide_eq_true hc, Bool.not_true]
      simp only [Bool.and_eq_false_iff, decide_eq_false_iff_not]
      omega
    · simp only [decide_eq_false hc, Bool.not_false]
      simp only [Bool.and_eq_true, decide_eq_true_eq]
      omega
  · rw [abs_of_nonpos (by omega : b - a ≤ 0)]
    by_cases hc : 2 * s < -(b - a)
    · simp only [decide_eq_true hc, Bool.not_true]
      simp only [Bool.and_eq_false_iff, decide_eq_false_iff_not]
      omega
    · simp only [decide_eq_false hc, Bool.not_false]
      simp only [Bool.and_eq_true, decide_eq_true_eq]
      omega

theorem selStep_overlaps (s : ℤ) (t : ScoredBreakout) : ∀ (acc : List BreakoutData),
    ((acc.map (fun b => (b.breakout_date - s, b.breakout_date + s))).any (fun sp =>
        decide (t.breakout.breakout_date - s ≤ sp.2) &&
        decide (sp.1 ≤ t.breakout.breakout_date + s))) =
      !(acc.all (fun b => decide (2 * s < |t.breakout.breakout_date - b.breakout_date|)))
  | [] => rfl
  | b :: rest => by
    simp only [List.map_cons, List.any_cons, List.all_cons, selStep_overlaps s t rest]
    rw [span_overlap_iff]
    cases h : decide (2 * s < |t.breakout.breakout_date - b.breakout_date|) <;>
      cases hr : rest.all (fun b => decide (2 * s < |t.breakout.breakout_date - b.breakout_date|)) <;>
      rfl

theorem select_fold_spec (s : ℤ) : ∀ (ts : List ScoredBreakout)
    (st : List BreakoutData × List (Int × Int)),
    st.2 = st.1.map (fun b => (b.breakout_date - s, b.breakout_date + s)) →
    (ts.foldl (selStep s) st).1 = selectSpecGreedy s st.1 ts
  | [], st, hinv => rfl
  | t :: ts, st, hinv => by
    rw [List.foldl_cons, selectSpecGreedy]
    have hover : (selStep s st t) =
        if st.1.all (fun b => decide (2 * s < |t.breakout.breakout_date - b.breakout_date|)) then
          (st.1 ++ [t.breakout],
            st.2 ++ [(t.breakout.breakout_date - s, t.breakout.breakout_date + s)])
        else st := by
      rw [selStep]
      rw [hinv, selStep_overlaps s t st.1]
      cases h : st.1.all (fun b => decide (2 * s < |t.breakout.breakout_date - b.breakout_date|)) <;>
        simp
    rw [hover]
    by_cases h :
        (st.1.all fun b => decide (2 * s < |t.breakout.breakout_date - b.breakout_date|)) = true
    · rw [if_pos h, if_pos h]
      exact select_fold_spec s ts _ (by simp [hinv])
    · rw [if_neg h, if_neg h]
      exact select_fold_spec s ts st hinv

theorem select_eq_spec (scored : List ScoredBreakout) (s : ℤ) :
    select_with_spacing scored s = select_spec scored s := by
  rw [select_with_spacing, select_spec]
  by_cases h : scored.isEmpty = true
  · rw [if_pos h]
    rw [List.isEmpty_iff] at h
    subst h
    simp [List.mergeSort, selectSpecGreedy]
  · rw [if_neg h]
    show (List.foldl (selStep s) ([], [])
        (scored.mergeSort fun a b => decide (b.category ≤ a.category))).1.mergeSort
        (fun a b => decide (a.breakout_date ≤ b.breakout_date)) = _
    rw [select_fold_spec s _ ([], []) rfl]

theorem selectSpecGreedy_pairwise (s : ℤ) : ∀ (ts : List ScoredBreakout)
    (acc : List BreakoutData),
    acc.Pairwise (fun a b => 2 * s < |a.breakout_date - b.breakout_date|) →
    (selectSpecGreedy s acc ts).Pairwise
      (fun a b => 2 * s < |a.breakout_date - b.breakout_date|)
  | [], acc, hacc => hacc
  | t :: ts, acc, hacc => by
    rw [selectSpecGreedy]
    by_cases h :
        (acc.all fun b => decide (2 * s < |t.breakout.breakout_date - b.breakout_date|)) = true
    · rw [if_pos h]
      refine selectSpecGreedy_pairwise s ts _ ?_
      rw [List.pairwise_append]
      refine ⟨hacc, List.pairwise_singleton _ _, ?_⟩
      intro a ha b hb
      rw [List.mem_singleton] at hb
      subst hb
      rw [List.all_eq_true] at h
      have := of_decide_eq_true (h a ha)
      rw [abs_sub_comm] at this
      exact this
    · rw [if_neg h]
      exact selectSpecGreedy_pairwise s ts acc hacc

theorem select_fold_mono (s : ℤ) : ∀ (ts : List ScoredBreakout)
    (st : List BreakoutData × List (Int × Int)),
    ∃ tail, (ts.foldl (selStep s) st).1 = st.1 ++ tail
  | [], st => ⟨[], by simp⟩
  | t :: ts, st => by
    rw [List.foldl_cons]
    obtain ⟨tail, htail⟩ := select_fold_mono s ts (selStep s st t)
    rw [selStep] at htail ⊢
    by_cases h : (st.2.any fun sp =>
        decide (t.breakout.breakout_date - s ≤ sp.2) &&
        decide (sp.1 ≤ t.breakout.breakout_date + s)) = true
    · rw [if_pos h] at htail ⊢
      exact ⟨tail, htail⟩
    · rw [if_neg h] at htail ⊢
      exact ⟨t.breakout :: tail, by simpa using htail⟩

theorem select_pairwise_far (scored : List ScoredBreakout) (s : ℤ) :
    (select_with_spacing scored s).Pairwise
      (fun a b => 2 * s < |a.breakout_date - b.breakout_date|) := by
  rw [select_eq_spec, select_spec]
  have hg := selectSpecGreedy_pairwise s
    (scored.mergeSort fun a b => decide (b.category ≤ a.category)) [] List.Pairwise.nil
  exact ((List.mergeSort_perm _ _).pairwise_iff
    (fun {x y} h => by rwa [abs_sub_comm] at h)).mpr hg

set_option maxRecDepth 4000 in
/-- C1 counterexample: two overlapping candidates where exBrA scores 1/4
and exBrB scores 0, yet the Selector keeps only exBrB — its higher
performance category wins, so quality score is not the ranking key. -/
theorem c1_counterexample :
    (scoreOne exDfSel exBrA).quality_score = 1/4 ∧
    (scoreOne exDfSel exBrB).quality_score = 0 ∧
    |exBrB.breakout_date - exBrA.breakout_date| ≤ 2 * 30 ∧
    select_with_spacing (score_breakouts exDfSel [exBrA, exBrB]) 30 = [exBrB] := by
  have hA : scoreOne exDfSel exBrA =
      { breakout_date := 100, low_date := 50, high_date := 40, quality_score := 1/4,
        breakout := exBrA, category := 2 } := by
    norm_num [scoreOne, exDfSel, exBrA, getLoc, min_pullback_pct_cfg, max_consolidation_drop,
      min_def, max_def, iloc, ilocRow]
  have hB : scoreOne exDfSel exBrB =
      { breakout_date := 120, low_date := 120, high_date := 120, quality_score := 0,
        breakout := exBrB, category := 4 } := by
    norm_num [scoreOne, exDfSel, exBrB, getLoc, min_pullback_pct_cfg, max_consolidation_drop,
      min_def, max_def, iloc, ilocRow]
  refine ⟨by rw [hA], by rw [hB], by decide, ?_⟩
  rw [score_breakouts]
  rw [List.map_cons, List.map_cons, List.map_nil, hA, hB]
  norm_num [List.mergeSort, select_with_spacing, selStep, List.splitInTwo, exBrA, exBrB]

set_option maxRecDepth 10000 in
theorem ex4_consLen : (iloc exDf4 19 36).length = 17 := by decide

set_option maxRecDepth 10000 in
set_option maxHeartbeats 1000000 in
theorem ex4_tightness :
    check_consolidation_tightness exDf4 19 35 max_consolidation_drop exception_threshold_cfg
      max_exception_days_cfg = (false, 1/3, 3) := by
  have hrows : iloc exDf4 19 36 =
      [ ⟨19, 140, 150, 139, 140, 1000, none, none, none⟩,
        ⟨20, 107, 107, 105, 106, 1000, none, none, none⟩,
        ⟨21, 107, 107, 105, 106, 1000, none, none, none⟩,
        ⟨22, 107, 107, 105, 106, 1000, none, none, none⟩,
        ⟨23, 107, 107, 105, 106, 1000, none, none, none⟩,
        ⟨24, 107, 107, 105, 106, 1000, none, none, none⟩,
        ⟨25, 107, 107, 105, 106, 1000, none, none, none⟩,
        ⟨26, 107, 107, 105, 106, 1000, none, none, none⟩,
        ⟨27, 107, 107, 105, 106, 1000, none, none, none⟩,
        ⟨28, 107, 107, 105, 106, 1000, none, none, none⟩,
        ⟨29, 107, 107, 105, 106, 1000, none, none, none⟩,
        ⟨30, 107, 107, 100, 106, 1000, none, none, none⟩,
        ⟨31, 107, 107, 100, 106, 1000, none, none, none⟩,
        ⟨32, 107, 107, 100, 106, 1000, none, none, none⟩,
        ⟨33, 107, 107, 105, 106, 1000, none, none, none⟩,
        ⟨34, 107, 107, 105, 106, 1000, none, none, none⟩,
        ⟨35, 110, 120, 110, 120, 5000, none, none, none⟩ ] := by decide
  norm_num [check_consolidation_tightness, ex4_gl19, ex4_gl35, hrows, ilocRow, colMax,
    max_def, max_consolidation_drop, exception_threshold_cfg, max_exception_days_cfg,
    List.countP_cons]

theorem containment_le_severe (df : List Row) (hd fd : Int)
    (hw : check_price_within_range df hd fd = true ∨
      check_price_within_range_relaxed df hd fd (min (max_consolidation_drop + 0.05) 0.5) = true)
    (high_idx breakout_idx : ℕ)
    (h1 : getLoc df hd = some high_idx) (h2 : getLoc df fd = some breakout_idx) :
    high_idx < breakout_idx ∧
    ((ilocRow df high_idx).high - colMin ((iloc df high_idx (breakout_idx + 1)).map (·.low))) /
        (ilocRow df high_idx).high ≤ exception_threshold_cfg := by
  rcases hw with hw | hw
  · rw [check_price_within_range] at hw
    simp only [h1, h2] at hw
    split at hw
    · exact absurd hw (by simp)
    · refine ⟨by omega, ?_⟩
      have hd30 : ((ilocRow df high_idx).high -
          colMin ((iloc df high_idx (breakout_idx + 1)).map (·.low))) /
          (ilocRow df high_idx).high ≤ 0.30 := of_decide_eq_true hw
      calc ((ilocRow df high_idx).high -
            colMin ((iloc df high_idx (breakout_idx + 1)).map (·.low))) /
            (ilocRow df high_idx).high ≤ 0.30 := hd30
        _ ≤ exception_threshold_cfg := by norm_num [exception_threshold_cfg]
  · rw [check_price_within_range_relaxed] at hw
    simp only [h1, h2] at hw
    split at hw
    · exact absurd hw (by simp)
    · refine ⟨by omega, ?_⟩
      have hd35 : ((ilocRow df high_idx).high -
          colMin ((iloc df high_idx (breakout_idx + 1)).map (·.low))) /
          (ilocRow df high_idx).high ≤ min (max_consolidation_drop + 0.05) 0.5 :=
        of_decide_eq_true hw
      calc ((ilocRow df high_idx).high -
            colMin ((iloc df high_idx (breakout_idx + 1)).map (·.low))) /
            (ilocRow df high_idx).high ≤ min (max_consolidation_drop + 0.05) 0.5 := hd35
        _ ≤ exception_threshold_cfg := by
            norm_num [exception_threshold_cfg, max_consolidation_drop, min_def]

theorem check_orderly_pullback_min (df : List Row) (hd : Int)
    (h : (check_orderly_pullback df hd).1 = true) :
    min_pullback_pct_cfg ≤ (check_orderly_pullback df hd).2.2 := by
  rw [check_orderly_pullback] at h ⊢
  rcases hloc : getLoc df hd with _ | high_idx
  · simp only [hloc] at h
    exact absurd h (by simp)
  · simp only [hloc] at h ⊢
    split at h
    · exact absurd h (by simp)
    · rw [if_neg (by assumption)]
      split at h
      · exact absurd h (by simp)
      · rw [if_neg (by assumption)]
        rw [min_pullback_pct_cfg]
        exact of_decide_eq_true h

theorem evaluate_candidate_gates (df : List Row) (idx : ℕ) (ex : List BreakoutData)
    (d : CandidateDetails) (h : evaluate_candidate df idx ex = some d) :
    (check_price_within_range df d.high_date d.focus_date = true ∨
      check_price_within_range_relaxed df d.high_date d.focus_date
        (min (max_consolidation_drop + 0.05) 0.5) = true) ∧
    (check_orderly_pullback df d.high_date).1 = true := by
  rw [evaluate_candidate] at h
  split at h
  · exact absurd h (by simp)
  split at h
  · exact absurd h (by simp)
  split at h
  · exact absurd h (by simp)
  split at h
  · exact absurd h (by simp)
  · exact absurd h (by simp)
  · exact absurd h (by simp)
  split at h
  · rename_i o1 o2 msi hpi hmsi hhpi
    split at h
    · exact absurd h (by simp)
    split at h
    · exact absurd h (by simp)
    split at h
    · exact absurd h (by simp)
    rename_i hwithin
    split at h
    · exact absurd h (by simp)
    split at h
    rename_i tup pb ldo pres heqpb
    split at h
    · exact absurd h (by simp)
    · exact absurd h (by simp)
    rename_i low_date
    split at h
    · exact absurd h (by simp)
    split at h
    · exact absurd h (by simp)
    rw [Option.some_inj] at h
    subst h
    constructor
    · have hw : ec_within_range df hpi idx = true := by
        revert hwithin
        cases ec_within_range df hpi idx <;> simp
      rw [ec_within_range, Bool.or_eq_true] at hw
      exact hw
    · rw [heqpb]
  · exact absurd h (by simp)

/-- C5: from any breakout index the classifier walks forward to the first
later position whose close sits below its 20-day average (the last index
when no such position exists), then buckets the percentage change from the
breakout day's open to that position's close by the fixed cutoffs
-2.5%, 10%, 35%. -/
theorem c5_classifier_walk (df : List Row) (idx : ℕ) (h : idx + 1 < df.length) :
    (idx < find_first_cross_below_sma df idx ∧ find_first_cross_below_sma df idx < df.length) ∧
    ((closeBelowSma20 df (find_first_cross_below_sma df idx) = true ∧
        ∀ j, idx < j → j < find_first_cross_below_sma df idx → closeBelowSma20 df j = false) ∨
      (find_first_cross_below_sma df idx = df.length - 1 ∧
        ∀ j, idx < j → j < df.length → closeBelowSma20 df j = false)) ∧
    (determine_performance_category df idx (find_first_cross_below_sma df idx) =
      if ((ilocRow df (find_first_cross_below_sma df idx)).close - (ilocRow df idx).open_) /
            (ilocRow df idx).open_ * 100 ≤ -2.5 then 1
       else if ((ilocRow df (find_first_cross_below_sma df idx)).close - (ilocRow df idx).open_) /
            (ilocRow df idx).open_ * 100 ≤ 10 then 2
       else if ((ilocRow df (find_first_cross_below_sma df idx)).close - (ilocRow df idx).open_) /
            (ilocRow df idx).open_ * 100 ≤ 35 then 3
       else 4) := by
  have hmain : (idx < find_first_cross_below_sma df idx ∧
      find_first_cross_below_sma df idx < df.length) ∧
      ((closeBelowSma20 df (find_first_cross_below_sma df idx) = true ∧
        ∀ j, idx < j → j < find_first_cross_below_sma df idx → closeBelowSma20 df j = false) ∨
      (find_first_cross_below_sma df idx = df.length - 1 ∧
        ∀ j, idx < j → j < df.length → closeBelowSma20 df j = false)) := by
    rw [find_first_cross_below_sma, if_neg (by omega)]
    cases hf : (List.range df.length).findIdx?
        (fun j => decide (idx + 1 ≤ j) && closeBelowSma20 df j) with
    | some c =>
      simp only [hf]
      rw [List.findIdx?_eq_some_iff_getElem] at hf
      obtain ⟨hc, hp, hmin⟩ := hf
      rw [List.length_range] at hc
      rw [List.getElem_range] at hp
      rw [Bool.and_eq_true, decide_eq_true_eq] at hp
      refine ⟨⟨by omega, hc⟩, Or.inl ⟨hp.2, ?_⟩⟩
      intro j hj1 hj2
      have := hmin j (by omega)
      rw [List.getElem_range] at this
      rw [Bool.and_eq_true, decide_eq_true_eq] at this
      by_contra hcb
      rw [Bool.not_eq_false] at hcb
      exact this ⟨by omega, hcb⟩
    | none =>
      simp only [hf]
      rw [List.findIdx?_eq_none_iff] at hf
      refine ⟨⟨by omega, by omega⟩, Or.inr ⟨by trivial, ?_⟩⟩
      intro j hj1 hj2
      have := hf j (List.mem_range.mpr hj2)
      rw [Bool.and_eq_false_iff] at this
      rcases this with hthis | hthis
      · rw [decide_eq_false_iff_not] at hthis
        omega
      · exact hthis
  refine ⟨hmain.1, hmain.2, ?_⟩
  have hclt := hmain.1.2
  rw [determine_performance_category, if_neg (not_le.mpr hclt)]

theorem firstValidFrom_least (w : List Row) (hl md : ℕ) (mdp : ℚ) :
    ∀ (fuel i fvi : ℕ) (pct : ℚ), firstValidFrom w hl md mdp i fuel = some (fvi, pct) →
      i ≤ fvi ∧ segment_valid_pct w hl md mdp fvi = some pct ∧
      ∀ j, i ≤ j → j < fvi → segment_valid_pct w hl md mdp j = none
  | 0, i, fvi, pct => by
    intro h
    exact absurd h (by rw [firstValidFrom]; simp)
  | fuel + 1, i, fvi, pct => by
    intro h
    rw [firstValidFrom] at h
    cases hseg : segment_valid_pct w hl md mdp i with
    | some p =>
      rw [hseg] at h
      simp only [Option.some_inj, Prod.mk.injEq] at h
      obtain ⟨h1, h2⟩ := h
      subst h1; subst h2
      exact ⟨le_rfl, hseg, fun j hj1 hj2 => absurd (lt_of_lt_of_le hj2 hj1) (lt_irrefl j)⟩
    | none =>
      rw [hseg] at h
      obtain ⟨hle, hvalid, hnone⟩ := firstValidFrom_least w hl md mdp fuel (i + 1) fvi pct h
      refine ⟨by omega, hvalid, fun j hj1 hj2 => ?_⟩
      rcases Nat.eq_or_lt_of_le hj1 with hj | hj
      · rw [← hj]; exact hseg
      · exact hnone j (by omega) hj2

/-- C6: when the uptrend locator reports a move, the returned start comes
from the earliest valid segment start — every earlier candidate start is
invalid — and it is either that first valid start's date itself or the date
of the lowest low within the next 20 bars, the latter only when the
shortened segment still meets the minimum-duration requirement. -/
theorem c6_earliest_first (df : List Row) (end_date : Int) (min_days : ℕ) (mdp : ℚ)
    (start hi : Int) (pct : ℚ)
    (h : find_big_move df end_date min_days mdp = (true, some start, some hi, pct)) :
    ∃ end_idx, getLoc df end_date = some end_idx ∧
      hi = (fbmHigh (fbmWindow df end_idx)).1 ∧
      (∃ fvi,
        segment_valid_pct (fbmWindow df end_idx) (fbmHigh (fbmWindow df end_idx)).2 min_days mdp
          fvi = some pct ∧
        (∀ j, j < fvi →
          segment_valid_pct (fbmWindow df end_idx) (fbmHigh (fbmWindow df end_idx)).2 min_days mdp
            j = none) ∧
        (start = (ilocRow (fbmWindow df end_idx) fvi).date ∨
          (start = (ilocRow (fbmWindow df end_idx)
              ((getLoc (fbmWindow df end_idx)
                ((ilocRow
                  (iloc (fbmWindow df end_idx) fvi
                    ((min ((fvi : ℤ) + 20)
                      (((fbmHigh (fbmWindow df end_idx)).2 : ℤ) - (min_days : ℤ))).toNat + 1))
                  (idxminCol ((iloc (fbmWindow df end_idx) fvi
                    ((min ((fvi : ℤ) + 20)
                      (((fbmHigh (fbmWindow df end_idx)).2 : ℤ) - (min_days : ℤ))).toNat + 1)).map
                        (·.low)))).date)).getD 0)).date ∧
            (min_days : ℤ) ≤
              max 1 ((ilocRow
                  (iloc (fbmWindow df end_idx)
                    ((getLoc (fbmWindow df end_idx)
                      ((ilocRow
                        (iloc (fbmWindow df end_idx) fvi
                          ((min ((fvi : ℤ) + 20)
                            (((fbmHigh (fbmWindow df end_idx)).2 : ℤ) - (min_days : ℤ))).toNat + 1))
                        (idxminCol ((iloc (fbmWindow df end_idx) fvi
                          ((min ((fvi : ℤ) + 20)
                            (((fbmHigh (fbmWindow df end_idx)).2 : ℤ) -
                              (min_days : ℤ))).toNat + 1)).map (·.low)))).date)).getD 0)
                    ((fbmHigh (fbmWindow df end_idx)).2 + 1))
                  ((iloc (fbmWindow df end_idx)
                    ((getLoc (fbmWindow df end_idx)
                      ((ilocRow
                        (iloc (fbmWindow df end_idx) fvi
                          ((min ((fvi : ℤ) + 20)
                            (((fbmHigh (fbmWindow df end_idx)).2 : ℤ) - (min_days : ℤ))).toNat + 1))
                        (idxminCol ((iloc (fbmWindow df end_idx) fvi
                          ((min ((fvi : ℤ) + 20)
                            (((fbmHigh (fbmWindow df end_idx)).2 : ℤ) -
                              (min_days : ℤ))).toNat + 1)).map (·.low)))).date)).getD 0)
                    ((fbmHigh (fbmWindow df end_idx)).2 + 1)).length - 1)).date -
                (ilocRow
                  (iloc (fbmWindow df end_idx)
                    ((getLoc (fbmWindow df end_idx)
                      ((ilocRow
                        (iloc (fbmWindow df end_idx) fvi
                          ((min ((fvi : ℤ) + 20)
                            (((fbmHigh (fbmWindow df end_idx)).2 : ℤ) - (min_days : ℤ))).toNat + 1))
                        (idxminCol ((iloc (fbmWindow df end_idx) fvi
                          ((min ((fvi : ℤ) + 20)
                            (((fbmHigh (fbmWindow df end_idx)).2 : ℤ) -
                              (min_days : ℤ))).toNat + 1)).map (·.low)))).date)).getD 0)
                    ((fbmHigh (fbmWindow df end_idx)).2 + 1)) 0).date)))) := by
  rw [find_big_move] at h
  cases hloc : getLoc df end_date with
  | none => rw [hloc] at h; exact absurd h (by simp)
  | some end_idx =>
    simp only [hloc] at h
    refine ⟨end_idx, rfl, ?_⟩
    split at h
    · exact absurd h (by simp)
    split at h
    · exact absurd h (by simp)
    split at h
    · exact absurd h (by simp)
    case _ hfv =>
    cases hfv2 : firstValidFrom (fbmWindow df end_idx) (fbmHigh (fbmWindow df end_idx)).2
        min_days mdp 0 (fbmHigh (fbmWindow df end_idx)).2 with
    | none => rw [hfv2] at h; exact absurd h (by simp)
    | some fv =>
      obtain ⟨fvi, vpct⟩ := fv
      simp only [hfv2] at h
      obtain ⟨-, hvalid, hnone⟩ :=
        firstValidFrom_least (fbmWindow df end_idx) (fbmHigh (fbmWindow df end_idx)).2 min_days
          mdp (fbmHigh (fbmWindow df end_idx)).2 0 fvi vpct hfv2
      split at h
      · split at h
        · simp only [Prod.mk.injEq, Option.some_inj] at h
          obtain ⟨-, hstart, hhi, hpct⟩ := h
          subst hpct
          exact ⟨hhi.symm, fvi, hvalid, fun j hj => hnone j (by omega) hj, Or.inl hstart.symm⟩
        · split at h
          · split at h
            · simp only [Prod.mk.injEq, Option.some_inj] at h
              obtain ⟨-, hstart, hhi, hpct⟩ := h
              subst hpct
              refine ⟨hhi.symm, fvi, hvalid, fun j hj => hnone j (by omega) hj, Or.inr ⟨hstart.symm, by assumption⟩⟩
            · simp only [Prod.mk.injEq, Option.some_inj] at h
              obtain ⟨-, hstart, hhi, hpct⟩ := h
              subst hpct
              exact ⟨hhi.symm, fvi, hvalid, fun j hj => hnone j (by omega) hj, Or.inl hstart.symm⟩
          · simp only [Prod.mk.injEq, Option.some_inj] at h
            obtain ⟨-, hstart, hhi, hpct⟩ := h
            subst hpct
            exact ⟨hhi.symm, fvi, hvalid, fun j hj => hnone j (by omega) hj, Or.inl hstart.symm⟩
      · simp only [Prod.mk.injEq, Option.some_inj] at h
        obtain ⟨-, hstart, hhi, hpct⟩ := h
        subst hpct
        exact ⟨hhi.symm, fvi, hvalid, fun j hj => hnone j (by omega) hj, Or.inl hstart.symm⟩

theorem mem_dropDupDatesAux : ∀ (l : List RawBar) (seen : List Int) (c : RawBar),
    c ∈ dropDupDatesAux l seen → c ∈ l
  | [], seen, c, h => absurd h (by rw [dropDupDatesAux]; simp)
  | b :: rest, seen, c, h => by
    rw [dropDupDatesAux] at h
    split at h
    · exact List.mem_cons_of_mem b (mem_dropDupDatesAux rest seen c h)
    · rcases List.mem_cons.mp h with h | h
      · exact h ▸ List.mem_cons_self b rest
      · exact List.mem_cons_of_mem b (mem_dropDupDatesAux rest _ c h)

theorem addSmas_dates (l : List RawBar) (r : Row) (h : r ∈ addSmas l) :
    ∃ b ∈ l, r.date = b.date := by
  rw [addSmas] at h
  simp only [List.mem_map, List.mem_range] at h
  obtain ⟨i, hi, rfl⟩ := h
  refine ⟨l.getD i default, ?_, rfl⟩
  rw [List.getD_eq_getElem?_getD, List.getElem?_eq_getElem hi]
  exact List.getElem_mem hi

/-- C10: every bar of a Series the Loader returns is dated on or after
1990-01-01 (day 7305): the Loader rejects a series whose most recent date
precedes the cutoff, drops all earlier bars otherwise, and rejects the
series when fewer than 126 bars survive the date filter. -/
theorem c10_loader_date_floor :
    (∀ data df, read_stock_data data = some df → ∀ r ∈ df, min_date ≤ r.date) ∧
    (∀ data m, data ≠ [] → (data.map (·.date)).max? = some m → m < min_date →
      read_stock_data data = none) ∧
    (∀ data, (data.filter (fun b => decide (min_date ≤ b.date))).length < 126 →
      read_stock_data data = none) := by
  refine ⟨?_, ?_, ?_⟩
  · intro data df h r hr
    simp only [read_stock_data] at h
    repeat' (split at h)
    all_goals try exact Option.noConfusion h
    rw [Option.some_inj] at h
    subst h
    obtain ⟨b, hb, hdate⟩ := addSmas_dates _ r hr
    have hb2 := mem_dropDupDatesAux _ [] b hb
    have hb3 := (List.mem_filter.mp hb2).1
    have hb4 := List.mem_filter.mp hb3
    rw [hdate]
    exact of_decide_eq_true hb4.2
  · intro data m hne hm hlt
    rw [read_stock_data]
    rw [if_neg (by simp [hne])]
    simp only [hm]
    rw [if_pos hlt]
  · intro data hlen
    rw [read_stock_data]
    by_cases hne : data.isEmpty
    · rw [if_pos hne]
    · rw [if_neg hne]
      cases hm : (data.map (·.date)).max? with
      | none => simp only [hm]
      | some m =>
        simp only [hm]
        by_cases hlt : m < min_date
        · rw [if_pos hlt]
        · rw [if_neg hlt]
          rw [if_pos hlen]

theorem le_colMax_aux (l : List ℚ) : ∀ (init x : ℚ), x = init ∨ x ∈ l → x ≤ l.foldl max init := by
  induction l with
  | nil =>
    intro init x h
    rcases h with h | h
    · exact h.le
    · simp at h
  | cons y ys ih =>
    intro init x h
    rw [List.foldl_cons]
    rcases h with h | h
    · subst h
      exact (le_max_left x y).trans (ih _ _ (Or.inl rfl))
    · rcases List.mem_cons.mp h with h | h
      · subst h
        exact (le_max_right init x).trans (ih _ _ (Or.inl rfl))
      · exact ih _ _ (Or.inr h)

theorem le_colMax (l : List ℚ) (x : ℚ) (h : x ∈ l) : x ≤ colMax l := by
  cases l with
  | nil => exact absurd h (List.not_mem_nil x)
  | cons y ys =>
    rw [colMax]
    rcases List.mem_cons.mp h with h | h
    · exact le_colMax_aux ys y x (Or.inl h)
    · exact le_colMax_aux ys y x (Or.inr h)

theorem getLoc_spec (df : List Row) (d : Int) (i : ℕ) (h : getLoc df d = some i) :
    i < df.length := by
  rw [getLoc, List.findIdx?_eq_some_iff_getElem] at h
  exact h.1

theorem iloc_head_mem (df : List Row) (a b : ℕ) (h : (iloc df a b).isEmpty = false)
    (ha : a < df.length) : ilocRow df a ∈ iloc df a b := by
  have hlen : 0 < (iloc df a b).length := by
    cases hil : iloc df a b with
    | nil => rw [hil] at h; simp at h
    | cons x xs => simp [hil]
  have hmem : (iloc df a b).get ⟨0, hlen⟩ ∈ iloc df a b := (iloc df a b).get_mem 0 hlen
  have hlen2 : 0 < (b - a) ⊓ (df.length - a) := by
    have : (iloc df a b).length = (b - a) ⊓ (df.length - a) := by
      simp [iloc, List.length_take, List.length_drop]
    omega
  have h0 : (iloc df a b).get ⟨0, hlen⟩ = ilocRow df a := by
    simp only [iloc, List.get_eq_getElem]
    rw [List.getElem_take, List.getElem_drop]
    rw [ilocRow, List.getD_eq_getElem?_getD, List.getElem?_eq_getElem ha]
    simp
  rw [h0] at hmem
  exact hmem

theorem quality_combo_range (t p d g : ℚ) (ht0 : 0 ≤ t) (ht1 : t ≤ 1) (hp0 : 0 ≤ p)
    (hp1 : p ≤ 1) (hd0 : 0 ≤ d) (hd1 : d ≤ 1) (hg0 : 0 ≤ g) (hg1 : g ≤ 1) :
    0 ≤ t * 0.60 + p * 0.15 + d * 0.10 + g * 0.15 ∧
      t * 0.60 + p * 0.15 + d * 0.10 + g * 0.15 ≤ 1 := by
  constructor <;> nlinarith

theorem ilocRow_mem (df : List Row) (i : ℕ) (h : i < df.length) : ilocRow df i ∈ df := by
  rw [ilocRow, List.getD_eq_getElem?_getD, List.getElem?_eq_getElem h]
  exact List.getElem_mem h

set_option maxHeartbeats 3200000 in
theorem scoreOne_range (df : List Row) (b : BreakoutData)
    (hpos : ∀ r ∈ df, 0 < r.close ∧ r.close ≤ r.high)
    (hdate : b.high_date ≤ b.breakout_date) :
    0 ≤ (scoreOne df b).quality_score ∧ (scoreOne df b).quality_score ≤ 1 := by
  rw [scoreOne]
  cases h1 : getLoc df b.breakout_date with
  | none => simp
  | some idx =>
    cases h2 : getLoc df b.high_date with
    | none => simp
    | some hix =>
      have hcons : (0 : ℚ) ≤ ((b.breakout_date - b.high_date : ℤ) : ℚ) / 60 := by
        apply div_nonneg _ (by norm_num)
        have h0 : (0 : ℤ) ≤ b.breakout_date - b.high_date := by omega
        exact_mod_cast h0
      simp only
      split_ifs with h01 h02 h03 h04 h05
      all_goals try
        exact quality_combo_range _ _ _ _ (le_max_left 0 _)
          (max_le (by norm_num) (min_le_left 1 _)) (le_max_left 0 _)
          (max_le (by norm_num) (min_le_right _ 1)) (le_min hcons (by norm_num))
          (min_le_right _ 1) le_rfl (by norm_num)
      all_goals
        refine quality_combo_range _ _ _ _ (le_max_left 0 _)
          (max_le (by norm_num) (min_le_left 1 _)) (le_max_left 0 _)
          (max_le (by norm_num) (min_le_right _ 1)) (le_min hcons (by norm_num))
          (min_le_right _ 1) ?_ (min_le_right _ 1)
      all_goals
        have hseg : (!(iloc df idx (b.cross_idx + 1)).isEmpty) = true := by assumption
      all_goals
        rw [Bool.not_eq_true'] at hseg
      all_goals
        have hidx : idx < df.length := getLoc_spec df b.breakout_date idx h1
      all_goals
        have hrow := hpos (ilocRow df idx) (ilocRow_mem df idx hidx)
      all_goals
        have hmem : (ilocRow df idx) ∈ iloc df idx (b.cross_idx + 1) :=
          iloc_head_mem df idx (b.cross_idx + 1) hseg hidx
      all_goals
        have hhigh : (ilocRow df idx).high ∈
            (iloc df idx (b.cross_idx + 1)).map (fun x => x.high) :=
          List.mem_map_of_mem _ hmem
      all_goals
        have hcm := le_colMax _ _ hhigh
      all_goals
        refine le_min ?_ (by norm_num)
      all_goals
        apply div_nonneg _ hrow.1.le
      all_goals
        have hcl : (ilocRow df idx).close ≤
            colMax ((iloc df idx (b.cross_idx + 1)).map (fun x => x.high)) :=
          le_trans hrow.2 hcm
      all_goals
        linarith

theorem determine_performance_category_mem (df : List Row) (i c : ℕ) :
    determine_performance_category df i c = 1 ∨ determine_performance_category df i c = 2 ∨
      determine_performance_category df i c = 3 ∨ determine_performance_category df i c = 4 := by
  rw [determine_performance_category]
  split_ifs <;> simp

/-- C3: every episode scored by the pipeline gets a quality_score in the
closed interval [0,1], and the classifier's performance category is always
one of 1, 2, 3, 4. -/
theorem c3_score_in_unit_interval_category_in_buckets (df : List Row)
    (bs : List BreakoutData)
    (hpos : ∀ r ∈ df, 0 < r.close ∧ r.close ≤ r.high)
    (hdate : ∀ b ∈ bs, b.high_date ≤ b.breakout_date) :
    (∀ s ∈ score_breakouts df bs, 0 ≤ s.quality_score ∧ s.quality_score ≤ 1) ∧
      ∀ i c : ℕ, determine_performance_category df i c = 1 ∨
        determine_performance_category df i c = 2 ∨
        determine_performance_category df i c = 3 ∨
        determine_performance_category df i c = 4 := by
  constructor
  · intro s hs
    simp only [score_breakouts, List.mem_mergeSort, List.mem_map] at hs
    obtain ⟨b, hb, rfl⟩ := hs
    exact scoreOne_range df b hpos (hdate b hb)
  · intro i c
    exact determine_performance_category_mem df i c

/-- C3 witness: the range theorem applied to a concrete frame and record. -/
theorem c3_witness :
    (∀ s ∈ score_breakouts exDfSel [exBrA], 0 ≤ s.quality_score ∧ s.quality_score ≤ 1) ∧
      ∀ i c : ℕ, determine_performance_category exDfSel i c = 1 ∨
        determine_performance_category exDfSel i c = 2 ∨
        determine_performance_category exDfSel i c = 3 ∨
        determine_performance_category exDfSel i c = 4 :=
  c3_score_in_unit_interval_category_in_buckets exDfSel [exBrA] (by decide) (by decide)

theorem quality_upper (t p d g : ℚ) (ht : t = 0) (hp : p ≤ 1) (hd : d ≤ 1) (hg : g ≤ 1) :
    t * 0.60 + p * 0.15 + d * 0.10 + g * 0.15 ≤ 0.40 := by
  subst ht
  nlinarith

/-- C9: records built by process_breakout store no max_drop_pct and no
exception_days, so the scorer falls back to the default 0.3 — exactly the
configured consolidation-drop ceiling — making the tightness component of
the quality score 0 and capping quality_score at 0.40. -/
theorem c9_default_ceiling_caps_score (df : List Row) (b : BreakoutData)
    (h1 : b.max_drop_pct = none) (h2 : b.exception_days = none) :
    b.max_drop_pct.getD 0.3 = max_consolidation_drop ∧
      max 0 (min 1 (1 - b.max_drop_pct.getD 0.3 / max_consolidation_drop)) = 0 ∧
      (scoreOne df b).quality_score ≤ 0.40 ∧
      ∀ tk fd ld cs cat ci pb op,
        (process_breakout_record tk fd ld cs cat ci pb op).max_drop_pct = none ∧
        (process_breakout_record tk fd ld cs cat ci pb op).exception_days = none := by
  refine ⟨?_, ?_, ?_, ?_⟩
  · rw [h1]
    norm_num [max_consolidation_drop]
  · rw [h1]
    norm_num [max_consolidation_drop]
  · rw [scoreOne]
    cases hg1 : getLoc df b.breakout_date with
    | none =>
      simp only
      norm_num
    | some idx =>
      cases hg2 : getLoc df b.high_date with
      | none =>
        simp only
        norm_num
      | some hix =>
        simp only [h1, h2, Option.getD_none]
        split_ifs with hA hB hC
        all_goals try exact absurd (by assumption) (lt_irrefl (0 : ℕ))
        all_goals first
        | exact quality_upper _ _ _ _ (by norm_num [max_consolidation_drop])
            (max_le (by norm_num) (min_le_right _ 1)) (min_le_right _ 1) (min_le_right _ 1)
        | exact quality_upper _ _ _ _ (by norm_num [max_consolidation_drop])
            (max_le (by norm_num) (min_le_right _ 1)) (min_le_right _ 1) (by norm_num)
  · intro tk fd ld cs cat ci pb op
    exact ⟨rfl, rfl⟩

/-- C9 witness: the default-ceiling bound applied to a concrete frame and
record. -/
theorem c9_witness :
    exBrA.max_drop_pct.getD 0.3 = max_consolidation_drop ∧
      max 0 (min 1 (1 - exBrA.max_drop_pct.getD 0.3 / max_consolidation_drop)) = 0 ∧
      (scoreOne exDfSel exBrA).quality_score ≤ 0.40 ∧
      ∀ tk fd ld cs cat ci pb op,
        (process_breakout_record tk fd ld cs cat ci pb op).max_drop_pct = none ∧
        (process_breakout_record tk fd ld cs cat ci pb op).exception_days = none :=
  c9_default_ceiling_caps_score exDfSel exBrA rfl rfl

theorem writeAttemptLoop_some (env : FsEnv) (d : Artifact) :
    ∀ (fuel attempt : ℕ) (file : Option Artifact),
      (writeAttemptLoop env d attempt fuel file).1 = true →
      (writeAttemptLoop env d attempt fuel file).2.1 = some d := by
  intro fuel
  induction fuel with
  | zero =>
    intro attempt file h
    rw [writeAttemptLoop] at h ⊢
    by_cases hd : env.directOk
    · simp [hd]
    · simp [hd] at h
  | succ n ih =>
    intro attempt file h
    rw [writeAttemptLoop] at h ⊢
    split_ifs at h ⊢ <;> first | rfl | exact ih _ _ h

theorem write_json_true (env : FsEnv) (d : Artifact) (f0 : Option Artifact)
    (h : (write_json env d f0).1 = true) :
    (write_json env d f0).2.1 = some d ∧ 10 ≤ d.size := by
  rw [write_json] at h ⊢
  cases hl : writeAttemptLoop env d 0 3 f0 with
  | mk wrote rest =>
    cases rest with
    | mk file atomic =>
      have hf : wrote = true → file = some d := by
        intro hw
        have := writeAttemptLoop_some env d 3 0 f0
        rw [hl] at this
        exact this hw
      simp only [hl] at h ⊢
      cases wrote with
      | false => simp at h
      | true =>
        rw [hf rfl] at h ⊢
        simp only at h ⊢
        by_cases hs : d.size < 10
        · rw [if_pos hs] at h
          simp at h
        · rw [if_neg hs] at h ⊢
          exact ⟨rfl, by omega⟩

theorem write_json_small (env : FsEnv) (d : Artifact) (f0 : Option Artifact)
    (h : d.size < 10) : (write_json env d f0).1 = false := by
  cases hb : (write_json env d f0).1 with
  | false => rfl
  | true =>
    obtain ⟨_, hge⟩ := write_json_true env d f0 hb
    omega

/-- C8 counterexample: with every rename failing, write_json lands the
content through the direct non-atomic fallback yet reports success; and
with the points.json write failing outright, process_breakout still
reports a produced episode whose points file is missing. -/
theorem c8_counterexample :
    write_json renameFailEnv ⟨100⟩ none = (true, some ⟨100⟩, false) ∧
      process_breakout_writes deadEnv okEnv okEnv ⟨100⟩ ⟨100⟩ ⟨100⟩ =
        some (none, ⟨100⟩, ⟨100⟩) := by
  constructor <;> rfl

/-- C8 (amended): a write reported successful leaves the target holding the
artifact with at least 10 bytes; an artifact under 10 bytes is always
reported failed; a failed D.json or after.json write aborts the episode,
and a surviving episode carries the D and after artifacts — but the
points.json write result is discarded, so its file may be absent. -/
theorem c8_write_contract (env envP envD envA : FsEnv) (d p dA aA : Artifact)
    (f0 : Option Artifact) :
    ((write_json env d f0).1 = true →
        (write_json env d f0).2.1 = some d ∧ 10 ≤ d.size) ∧
      (d.size < 10 → (write_json env d f0).1 = false) ∧
      ((write_json envD dA none).1 = false →
        process_breakout_writes envP envD envA p dA aA = none) ∧
      ((write_json envA aA none).1 = false →
        process_breakout_writes envP envD envA p dA aA = none) ∧
      ∀ out, process_breakout_writes envP envD envA p dA aA = some out →
        out = ((write_json envP p none).2.1, dA, aA) ∧ 10 ≤ dA.size ∧ 10 ≤ aA.size := by
  refine ⟨write_json_true env d f0, write_json_small env d f0, ?_, ?_, ?_⟩
  · intro h
    rw [process_breakout_writes]
    cases hw : write_json envD dA none with
    | mk b rest =>
      rw [hw] at h
      cases b with
      | false => rfl
      | true => simp at h
  · intro h
    rw [process_breakout_writes]
    cases hw : write_json envD dA none with
    | mk b rest =>
      cases b with
      | false => rfl
      | true =>
        obtain ⟨hf, hge⟩ := write_json_true envD dA none (by rw [hw])
        rw [hw] at hf
        cases rest with
        | mk file atomic =>
          simp only at hf
          subst hf
          simp only
          rw [if_neg (by omega)]
          cases hwa : write_json envA aA none with
          | mk b2 rest2 =>
            rw [hwa] at h
            cases b2 with
            | false => rfl
            | true => simp at h
  · intro out h
    rw [process_breakout_writes] at h
    cases hw : write_json envD dA none with
    | mk b rest =>
      rw [hw] at h
      cases b with
      | false => exact absurd h (by simp)
      | true =>
        obtain ⟨hf, hge⟩ := write_json_true envD dA none (by rw [hw])
        rw [hw] at hf
        cases rest with
        | mk file atomic =>
          simp only at hf
          subst hf
          simp only at h
          rw [if_neg (by omega)] at h
          cases hwa : write_json envA aA none with
          | mk b2 rest2 =>
            rw [hwa] at h
            cases b2 with
            | false => exact absurd h (by simp)
            | true =>
              obtain ⟨hfa, hgea⟩ := write_json_true envA aA none (by rw [hwa])
              rw [hwa] at hfa
              cases rest2 with
              | mk file2 atomic2 =>
                simp only at hfa
                subst hfa
                simp only at h
                rw [if_neg (by omega)] at h
                rw [Option.some_inj] at h
                exact ⟨h.symm, by omega, by omega⟩

/-- C8 witness: the amended write contract applied in the environment where
the first atomic attempt succeeds. -/
theorem c8_witness :
    (write_json okEnv ⟨100⟩ none).2.1 = some ⟨100⟩ ∧ 10 ≤ (Artifact.mk 100).size :=
  (c8_write_contract okEnv okEnv okEnv okEnv ⟨100⟩ ⟨100⟩ ⟨100⟩ ⟨100⟩ none).1 (by decide)

set_option maxRecDepth 40000 in
/-- C7 counterexample: more than 90% of exRaw10's raw days close above
their open (118 of 131), yet the Loader accepts the series — the up-close
gate only sees the bars surviving the date filter and invalid-row drop. -/
theorem c7_counterexample :
    ((exRaw10.countP (fun b => decide (b.close > b.open_)) : ℚ) / (exRaw10.length : ℚ) > 0.9) ∧
      read_stock_data exRaw10 ≠ none := by
  constructor
  · have h1 : exRaw10.countP (fun b => decide (b.close > b.open_)) = 118 := by decide
    have h2 : exRaw10.length = 131 := by decide
    rw [h1, h2]
    norm_num
  · rw [exRaw10_eval]
    simp

/-- C7 (amended): the up-close-ratio gate applies to the bars that survive
the date filter and the invalid-row drop; when every bar is on or after the
cutoff and valid — so the filters are no-ops — a series with more than 90%
up-closes is rejected outright and yields no Series. -/
theorem c7_green_ratio_reject (data : List RawBar)
    (hdates : ∀ b ∈ data, min_date ≤ b.date)
    (hvalid : ∀ b ∈ data, invalidRow b = false)
    (hratio : (data.countP (fun b => decide (b.close > b.open_)) : ℚ) / (data.length : ℚ)
      > 0.9) :
    read_stock_data data = none :=
  read_stock_data_green_reject data hdates hvalid hratio

set_option maxRecDepth 40000 in
/-- C7 witness: the ratio gate rejects a concrete 126-bar series with a
117/126 (about 93%) up-close ratio. -/
theorem c7_witness : read_stock_data exRawReject = none := by
  apply c7_green_ratio_reject exRawReject (by decide) (by decide)
  have h1 : exRawReject.countP (fun b => decide (b.close > b.open_)) = 117 := by decide
  have h2 : exRawReject.length = 126 := by decide
  rw [h1, h2]
  norm_num

/-- C5 witness: the classifier walk applied to a concrete four-row frame
where the first sub-SMA close sits two positions after the breakout. -/
theorem c5_witness :
    0 < find_first_cross_below_sma exDfC5 0 ∧
      find_first_cross_below_sma exDfC5 0 < exDfC5.length :=
  (c5_classifier_walk exDfC5 0 (by decide)).1

/-- C6 witness: the earliest-first characterization applied to the concrete
37-bar series, whose located move runs from date 0 to the swing high at
date 19. -/
theorem c6_witness :
    ∃ end_idx, getLoc exDf4 (35 : ℤ) = some end_idx ∧
      (19 : ℤ) = (fbmHigh (fbmWindow exDf4 end_idx)).1 := by
  obtain ⟨e, h1, h2, _⟩ :=
    c6_earliest_first exDf4 35 min_uptrend_days min_daily_uptrend_pct 0 19 50 exDf4_fbm
  exact ⟨e, h1, h2⟩

/-- C10 witness: the date-floor theorem applied to a one-bar series dated
before the cutoff, which the Loader rejects. -/
theorem c10_witness :
    read_stock_data
      [({ date := 0, open_ := 1, high := 2, low := 1, close := 1, volume := 1 } : RawBar)] =
      none :=
  c10_loader_date_floor.2.1
    [({ date := 0, open_ := 1, high := 2, low := 1, close := 1, volume := 1 } : RawBar)]
    0 (by decide) (by decide) (by decide)

/-- C4 (amended): an accepted episode's drawdown — from the swing high's
high to the lowest low through the breakout — never exceeds the severe
threshold 0.35 (the relaxed containment bound min(0.30 + 0.05, 0.5)), with
no per-day exception limit, and the orderly-pullback check it passed puts
its pullback percentage at or above the configured 4% floor. -/
theorem c4_drawdown_and_pullback (df : List Row) (idx : ℕ) (ex : List BreakoutData)
    (d : CandidateDetails) (h : evaluate_candidate df idx ex = some d)
    (high_idx breakout_idx : ℕ)
    (h1 : getLoc df d.high_date = some high_idx)
    (h2 : getLoc df d.focus_date = some breakout_idx) :
    high_idx < breakout_idx ∧
      ((ilocRow df high_idx).high -
          colMin ((iloc df high_idx (breakout_idx + 1)).map (·.low))) /
          (ilocRow df high_idx).high ≤ exception_threshold_cfg ∧
      min_pullback_pct_cfg ≤ (check_orderly_pullback df d.high_date).2.2 := by
  obtain ⟨hw, hp⟩ := evaluate_candidate_gates df idx ex d h
  obtain ⟨hlt, hsev⟩ :=
    containment_le_severe df d.high_date d.focus_date hw high_idx breakout_idx h1 h2
  exact ⟨hlt, hsev, check_orderly_pullback_min df d.high_date hp⟩

/-- C4 witness: the drawdown and pullback bounds applied to the approved
breakout of the concrete 37-bar series. -/
theorem c4_witness :
    (19 : ℕ) < 35 ∧
      ((ilocRow exDf4 19).high - colMin ((iloc exDf4 19 (35 + 1)).map (·.low))) /
          (ilocRow exDf4 19).high ≤ exception_threshold_cfg ∧
      min_pullback_pct_cfg ≤ (check_orderly_pullback exDf4 (19 : ℤ)).2.2 :=
  c4_drawdown_and_pullback exDf4 35 [] ⟨35, 0, 19, 30, 1, 36⟩ exDf4_eval 19 35
    (by decide) (by decide)

/-- C4 counterexample: the approved breakout of exDf4 spends three days in
the ceiling-to-severe band — one more than max_exception_days allows, so
the day-limited tolerance checker check_consolidation_tightness rejects
it — yet evaluate_candidate accepts: the checker is never consulted. -/
theorem c4_counterexample :
    (evaluate_candidate exDf4 35 []).isSome = true ∧
      check_consolidation_tightness exDf4 19 35 max_consolidation_drop
        exception_threshold_cfg max_exception_days_cfg = (false, 1/3, 3) ∧
      max_exception_days_cfg < 3 := by
  refine ⟨?_, ex4_tightness, by norm_num [max_exception_days_cfg]⟩
  rw [exDf4_eval]
  rfl

/-- C1 (amended): the Selector equals the specification selector that
stable-sorts the scored tuples by performance category — not quality
score — before the greedy spacing pass and returns the accepted records
chronologically; quality score only breaks category ties through sort
stability. -/
theorem c1_selector_sorts_by_category (scored : List ScoredBreakout) (s : ℤ) :
    select_with_spacing scored s = select_spec scored s :=
  select_eq_spec scored s

/-- C2: any two distinct episodes the Selector returns have breakout dates
strictly more than 2 x spacing days apart — equivalently their spacing
windows are disjoint — and the greedy loop only ever appends to the
accepted list, never removing an accepted episode. -/
theorem c2_spacing_invariant (scored : List ScoredBreakout) (s : ℤ) :
    (select_with_spacing scored s).Pairwise
      (fun a b => 2 * s < |a.breakout_date - b.breakout_date| ∧
        (a.breakout_date + s < b.breakout_date - s ∨
          b.breakout_date + s < a.breakout_date - s)) ∧
      ∀ (ts : List ScoredBreakout) (st : List BreakoutData × List (Int × Int)),
        ∃ tail, (ts.foldl (selStep s) st).1 = st.1 ++ tail := by
  constructor
  · refine (select_pairwise_far scored s).imp ?_
    intro a b hab
    refine ⟨hab, ?_⟩
    rcases abs_cases (a.breakout_date - b.breakout_date) with ⟨he, _⟩ | ⟨he, _⟩ <;> omega
  · exact fun ts st => select_fold_mono s ts st
